import Mathlib

/-!
Shallow embedding of the EvalAgent trajectory-visualisation core:
the fingerprint service (`imageHash`), the trajectory graph builder
(`graphBuilder.js`), the similarity clusterer (`buildClusters`), the
synthetic self-loop pass and the highlight-playback timer bookkeeping
(`TrajectoryGraph`).  Machine integers do not occur on the verified
paths; JS numbers used here are non-negative integers and are modelled
as `Nat`.  Image decoding/hashing is asynchronous and external; it is
modelled by an arbitrary resolved fingerprint function
`hashFn : String → String` mapping a screenshot source to its digest,
matching the premise "identical fingerprinting results per screenshot".
-/

namespace EvalAgent

/-- Binary-digit loop of the popcount, written with an explicit fuel
argument (the fuel `n` always suffices because `n` has at most `n`
binary digits); structural recursion keeps the definition
kernel-reducible. -/
def popcountAux : Nat → Nat → Nat
  | 0, _ => 0
  | _, 0 => 0
  | fuel + 1, n + 1 => (n + 1) % 2 + popcountAux fuel ((n + 1) / 2)

/-- Number of one bits in the binary representation of `n`
(the JS `xor.toString(2).replace(/0/g, "").length`). -/
def popcount (n : Nat) : Nat := popcountAux n n

/-- JS `parseInt(c, 16)` on a single character, with the subsequent
`^` coercing a `NaN` (non-hex character) to `0`. -/
def hexVal (c : Char) : Nat :=
  if '0' ≤ c ∧ c ≤ '9' then c.toNat - '0'.toNat
  else if 'a' ≤ c ∧ c ≤ 'f' then c.toNat - 'a'.toNat + 10
  else if 'A' ≤ c ∧ c ≤ 'F' then c.toNat - 'A'.toNat + 10
  else 0

/-- JS `String.prototype.padEnd(n, "0")`. -/
def padEnd (s : String) (n : Nat) : String :=
  ⟨s.data ++ List.replicate (n - s.data.length) '0'⟩

/-- The accumulation loop of `hammingDistance`: XOR popcount of
corresponding hex nibbles of two equal-length digit lists. -/
def nibbleXorDistance (a b : List Char) : Nat :=
  (List.zip a b).foldl (fun acc p => acc + popcount (Nat.xor (hexVal p.1) (hexVal p.2))) 0

/-- `hammingDistance(hashA, hashB)` from `imageHash`: `0` when both
hashes are empty, maximal when exactly one is empty, otherwise the
nibble-wise XOR popcount after right-padding the shorter hash with
`'0'`. -/
def hammingDistance (hashA hashB : String) : Nat :=
  if hashA.length = 0 ∧ hashB.length = 0 then 0
  else if hashA.length = 0 ∨ hashB.length = 0 then max hashA.length hashB.length * 4
  else
    nibbleXorDistance (padEnd hashA (max hashA.length hashB.length)).data
      (padEnd hashB (max hashA.length hashB.length)).data

/-- `hashesAreSimilar(hashA, hashB, threshold)` from `imageHash`. -/
def hashesAreSimilar (hashA hashB : String) (threshold : Nat) : Prop :=
  hammingDistance hashA hashB ≤ threshold

instance (hashA hashB : String) (threshold : Nat) :
    Decidable (hashesAreSimilar hashA hashB threshold) :=
  Nat.decLe _ _

/-- `FIRST_CONDITION_HASH` from `graphBuilder.js`. -/
def FIRST_CONDITION_HASH : String :=
  "ffffffffffffffffffffffffffffffffffffffffffffffffffffffffffffffff"

/-- The reserved node id used for every position-0 screenshot. -/
def conditionFirstNodeId : String := "node-condition-first"

/-- Node id assignment of `buildTrajectoryGraph`: position 0 maps to the
reserved first-of-run id, later positions to `node-<fingerprint>`. -/
def nodeIdFor (hashFn : String → String) (position : Nat) (src : String) : String :=
  if position = 0 then conditionFirstNodeId else "node-" ++ hashFn src

/-- Hash stored on the node record: `FIRST_CONDITION_HASH` for the
reserved first node, the screenshot fingerprint otherwise. -/
def nodeHashFor (hashFn : String → String) (position : Nat) (src : String) : String :=
  if position = 0 then FIRST_CONDITION_HASH else hashFn src

/-- A deduplicated graph node (the fields of the `nodeMap` records that
the verified claims depend on; rendering-only fields are omitted).
An occurrence is a `(sequenceIndex, position)` pair. -/
structure Node where
  id : String
  hash : String
  isConditionFirst : Bool
  occurrences : List (Nat × Nat)
  weight : Nat
  clusterId : Option String
deriving DecidableEq, Repr

/-- One step of the node-collection loop of `buildTrajectoryGraph`:
create the node record on first sight of its id, then append the
occurrence and bump the weight. -/
def insertOcc (nodes : List Node) (nid hash : String) (isFirst : Bool)
    (occ : Nat × Nat) : List Node :=
  let base :=
    if nodes.any (fun n => n.id == nid) then nodes
    else nodes ++ [{ id := nid, hash := hash, isConditionFirst := isFirst,
                     occurrences := [], weight := 0, clusterId := none }]
  base.map (fun n =>
    if n.id == nid then
      { n with occurrences := n.occurrences ++ [occ], weight := n.weight + 1 }
    else n)

/-- All `(sequenceIndex, position, src)` triples of the input, in the
canonical sequence-major order. -/
def occurrenceList (seqs : List (List String)) : List (Nat × Nat × String) :=
  (seqs.enum.map (fun p => p.2.enum.map (fun q => (p.1, q.1, q.2)))).flatten

/-- The node-collection phase run over an explicit processing order of
the per-screenshot operations (the `Promise.all` completion order). -/
def buildNodesFrom (hashFn : String → String)
    (order : List (Nat × Nat × String)) : List Node :=
  order.foldl (fun nodes o =>
    insertOcc nodes (nodeIdFor hashFn o.2.1 o.2.2) (nodeHashFor hashFn o.2.1 o.2.2)
      (o.2.1 == 0) (o.1, o.2.1)) []

/-- The node-collection phase in the canonical order. -/
def buildNodes (hashFn : String → String) (seqs : List (List String)) : List Node :=
  buildNodesFrom hashFn (occurrenceList seqs)

/-- The `sequenceNodeIds` arrays: each slot is written exactly once with
a pure function of its own `(position, src)`. -/
def assignNodeIds (hashFn : String → String) (seqs : List (List String)) :
    List (List String) :=
  seqs.map (fun shots => shots.enum.map (fun q => nodeIdFor hashFn q.1 q.2))

/-- A directed transition link (the fields of the `linksMap` records the
claims depend on).  `sequenceIndex` is optional because synthetic
self-loops may carry `null` there. -/
structure Link where
  id : String
  source : String
  target : String
  count : Nat
  occurrences : List (Nat × Nat)
  sequenceIndex : Option Nat
  synthetic : Bool
deriving DecidableEq, Repr

/-- The string key of the `linksMap`. -/
def linkKey (sourceId targetId : String) (seqIdx : Nat) : String :=
  sourceId ++ "__" ++ targetId ++ "__" ++ toString seqIdx

/-- The `linksMap` upsert: create the entry with count 0 on first sight
of the key, then increment the count and append the occurrence. -/
def upsertLink (links : List Link) (sourceId targetId : String)
    (seqIdx position : Nat) : List Link :=
  let key := linkKey sourceId targetId seqIdx
  let base :=
    if links.any (fun l => l.id == key) then links
    else links ++ [{ id := key, source := sourceId, target := targetId, count := 0,
                     occurrences := [], sequenceIndex := some seqIdx, synthetic := false }]
  base.map (fun l =>
    if l.id == key then
      { l with count := l.count + 1, occurrences := l.occurrences ++ [(seqIdx, position)] }
    else l)

/-- One iteration of the links loop: read the node ids at `pos` and
`pos + 1`, skip unresolved (falsy) or identical endpoints, upsert
otherwise. -/
def linkStep (seqIdx : Nat) (ids : List String) (links : List Link) (pos : Nat) :
    List Link :=
  match ids.get? pos, ids.get? (pos + 1) with
  | some cur, some next =>
    if cur.isEmpty || next.isEmpty then links
    else if cur == next then links
    else upsertLink links cur next seqIdx pos
  | _, _ => links

/-- The inner links loop of `buildTrajectoryGraph` for one sequence:
walk consecutive positions. -/
def buildLinksForSeq (links : List Link) (seqIdx : Nat) (ids : List String) : List Link :=
  (List.range (ids.length - 1)).foldl (linkStep seqIdx ids) links

/-- The links phase of `buildTrajectoryGraph` over all sequences. -/
def buildLinks (seqNodeIds : List (List String)) : List Link :=
  seqNodeIds.enum.foldl (fun links p => buildLinksForSeq links p.1 p.2) []

/-- `buildTrajectoryGraph`'s node and link output for a given resolved
fingerprint function. -/
def buildGraph (hashFn : String → String) (seqs : List (List String)) :
    List Node × List Link :=
  (buildNodes hashFn seqs, buildLinks (assignNodeIds hashFn seqs))

/-- The graph build with an explicit completion order of the
asynchronous per-screenshot hashing operations; the links phase runs
synchronously after the join and reads only `sequenceNodeIds`. -/
def buildGraphOrdered (hashFn : String → String) (seqs : List (List String))
    (order : List (Nat × Nat × String)) : List Node × List Link :=
  (buildNodesFrom hashFn order, buildLinks (assignNodeIds hashFn seqs))

/-- A similarity cluster (`buildClusters` output record; label and color
are rendering-only and omitted). -/
structure Cluster where
  id : String
  nodeIds : List String
  representativeNodeId : String
deriving DecidableEq, Repr

/-- The inner candidate loop of `buildClusters`: an unassigned later
node with the same first-of-run flag joins the seed's cluster when its
hash is within the similarity threshold.  The state is the member list
and the assignment map. -/
def clusterJoinStep (seed : Node) (clusterId : String) (thr : Nat)
    (st : List Node × List (String × String)) (cand : Node) :
    List Node × List (String × String) :=
  if st.2.any (fun p => p.1 == cand.id) then st
  else if seed.isConditionFirst != cand.isConditionFirst then st
  else if hashesAreSimilar seed.hash cand.hash thr then
    (st.1 ++ [cand], st.2 ++ [(cand.id, clusterId)])
  else st

/-- The outer scan of `buildClusters`: each still-unassigned node seeds
a new cluster `cluster-<k>` and collects unassigned similar nodes among
the later entries. -/
def buildClustersAux (thr : Nat) :
    List Node → List Cluster → List (String × String) →
    List Cluster × List (String × String)
  | [], clusters, asg => (clusters, asg)
  | node :: rest, clusters, asg =>
    if asg.any (fun p => p.1 == node.id) then buildClustersAux thr rest clusters asg
    else
      let clusterId := "cluster-" ++ toString clusters.length
      let st := rest.foldl (clusterJoinStep node clusterId thr)
        ([node], asg ++ [(node.id, clusterId)])
      buildClustersAux thr rest
        (clusters ++ [{ id := clusterId, nodeIds := st.1.map (fun m => m.id),
                        representativeNodeId := node.id }])
        st.2

/-- `buildClusters(nodes, {similarityThreshold})`: the cluster list plus
the nodes with their `clusterId` fields set from the assignment map
(the in-place member mutation together with the final backfill pass). -/
def buildClusters (nodes : List Node) (thr : Nat) : List Cluster × List Node :=
  let r := buildClustersAux thr nodes [] []
  (r.1, nodes.map (fun n =>
    { n with clusterId := (r.2.find? (fun p => p.1 == n.id)).map (fun p => p.2) }))

/-- Insertion step of the ascending sort used on a run's positions
(the JS `positions.slice().sort((a, b) => a - b)`). -/
def insertSorted (x : Nat) : List Nat → List Nat
  | [] => [x]
  | y :: ys => if x ≤ y then x :: y :: ys else y :: insertSorted x ys

/-- Ascending sort of a run's positions. -/
def sortPositions (l : List Nat) : List Nat := l.foldr insertSorted []

/-- The run-length loop of `getMaxConsecutiveConditionRun` over a sorted
position list: a position equal to or one past its predecessor extends
the current run, anything else closes it. -/
def runAux : List Nat → Nat → Nat → Nat → Nat
  | [], _, cur, mx => max mx cur
  | p :: rest, prev, cur, mx =>
    if p = prev + 1 ∨ p = prev then runAux rest p (cur + 1) mx
    else runAux rest p 1 (max mx cur)

/-- Longest consecutive run within one sorted position list. -/
def maxRunOfSorted : List Nat → Nat
  | [] => 0
  | p :: rest => runAux rest p 1 0

/-- The `byCondition` grouping of `getMaxConsecutiveConditionRun`:
positions bucketed by sequence index in first-seen order. -/
def groupBySeq (occs : List (Nat × Nat)) : List (Nat × List Nat) :=
  occs.foldl (fun acc occ =>
    if acc.any (fun g => g.1 == occ.1) then
      acc.map (fun g => if g.1 == occ.1 then (g.1, g.2 ++ [occ.2]) else g)
    else acc ++ [(occ.1, [occ.2])]) []

/-- `getMaxConsecutiveConditionRun(occurrences)` from `TrajectoryGraph`:
the longest same-sequence consecutive revisit run, reported only when it
reaches 2. -/
def getMaxConsecutiveConditionRun (occs : List (Nat × Nat)) : Nat :=
  if occs.length < 2 then 0
  else
    let mx := (groupBySeq occs).foldl
      (fun mx g => max mx (maxRunOfSorted (sortPositions g.2))) 0
    if 2 ≤ mx then mx else 0

/-- The `occurrences.reduce` picking the lexicographically earliest
`(sequenceIndex, position)` occurrence of a node. -/
def primaryOccurrence (occs : List (Nat × Nat)) : Option (Nat × Nat) :=
  occs.foldl (fun best occ =>
    match best with
    | none => some occ
    | some b =>
      if occ.1 < b.1 then some occ
      else if occ.1 = b.1 ∧ occ.2 < b.2 then some occ
      else some b) none

/-- The synthetic self-loop pass of `TrajectoryGraph`: every node with a
consecutive repeat run (≥ 2) that did not already acquire a literal
self-referencing link receives one `__loop__` link tagged synthetic and
carrying the run length. -/
def syntheticSelfLinks (nodes : List Node) (links : List Link) : List Link :=
  let existingSelfLoopNodeIds := (links.filter (fun l => l.source == l.target)).map
    (fun l => l.source)
  (nodes.filter (fun n =>
      decide (0 < getMaxConsecutiveConditionRun n.occurrences) &&
        !(existingSelfLoopNodeIds.contains n.id))).map
    (fun n =>
      { id := "__loop__" ++ n.id, source := n.id, target := n.id,
        count := getMaxConsecutiveConditionRun n.occurrences,
        occurrences := [],
        sequenceIndex := (primaryOccurrence n.occurrences).map (fun o => o.1),
        synthetic := true })

/-- `[...links, ...syntheticSelfLinks]`. -/
def augmentedLinks (nodes : List Node) (links : List Link) : List Link :=
  links ++ syntheticSelfLinks nodes links

/-- State of the highlight playback bookkeeping: the scheduled timers
still pending in the event loop (tagged with the playback request that
created them), the mutable `highlightStateRef.current.timers` list, and
the request currently being played. -/
structure PlayerState where
  pending : List (Nat × Nat)
  tracked : List Nat
  currentReq : Nat
deriving DecidableEq, Repr

/-- `cancelHighlightTimers`: clear every tracked timer from the event
loop and reset the tracked list. -/
def cancelHighlightTimers (s : PlayerState) : PlayerState :=
  { s with pending := s.pending.filter (fun t => !(s.tracked.contains t.1)),
           tracked := [] }

/-- `window.setTimeout` + `registerTimer`: schedule a timer owned by the
current playback and record its id in the tracked list. -/
def registerAndSchedule (s : PlayerState) (timerId : Nat) : PlayerState :=
  { s with pending := s.pending ++ [(timerId, s.currentReq)],
           tracked := s.tracked ++ [timerId] }

/-- The highlight effect on a new request: cancel all pending timers of
any prior playback first, then schedule the new playback's timers. -/
def processHighlightRequest (s : PlayerState) (req : Nat) (newTimers : List Nat) :
    PlayerState :=
  newTimers.foldl registerAndSchedule
    { cancelHighlightTimers s with currentReq := req }

/-- A pending timer fires: it leaves the event loop and its callback may
schedule follow-up timers through `registerTimer`. -/
def fireTimer (s : PlayerState) (timerId : Nat) (spawned : List Nat) : PlayerState :=
  if s.pending.any (fun t => t.1 == timerId) then
    spawned.foldl registerAndSchedule
      { s with pending := s.pending.filter (fun t => t.1 != timerId) }
  else s

/-- Every pending timer belongs to the current playback and is recorded
in the tracked list. -/
def TimersInv (s : PlayerState) : Prop :=
  ∀ t ∈ s.pending, t.2 = s.currentReq ∧ s.tracked.contains t.1 = true

/-! ### Helper lemmas -/

theorem string_ne_iff_length {a : String} (h : a ≠ "") : a.length ≠ 0 := by
  intro hlen
  apply h
  apply String.ext
  have : a.data.length = 0 := hlen
  simpa using List.length_eq_zero.mp this

theorem nibbleXor_foldl_self (l : List Char) (acc : Nat) :
    (List.zip l l).foldl (fun acc p => acc + popcount (Nat.xor (hexVal p.1) (hexVal p.2)))
      acc = acc := by
  induction l generalizing acc with
  | nil => rfl
  | cons c l ih =>
    have hx : Nat.xor (hexVal c) (hexVal c) = 0 := Nat.xor_self _
    have h0 : popcount 0 = 0 := rfl
    simp only [List.zip_cons_cons, List.foldl_cons, hx, h0, Nat.add_zero]
    exact ih acc

theorem nibbleXorDistance_self (l : List Char) : nibbleXorDistance l l = 0 :=
  nibbleXor_foldl_self l 0

/-! ### Claim C2 -/

/-- Claim C2: in the node id assignment of `buildTrajectoryGraph`, the
position-0 screenshot of every sequence maps to the single reserved
first-of-run node id regardless of its content, and every position > 0
maps to the fingerprint-derived id `node-<fingerprint>`. -/
theorem firstScreenshot_reserved_nodeId (hashFn : String → String)
    (seqs : List (List String)) (i p : Nat) (shots : List String) (src : String)
    (hi : seqs[i]? = some shots) (hp : shots[p]? = some src) :
    ∃ row, (assignNodeIds hashFn seqs)[i]? = some row ∧
      row[p]? = some (if p = 0 then conditionFirstNodeId else "node-" ++ hashFn src) := by
  refine ⟨shots.enum.map (fun q => nodeIdFor hashFn q.1 q.2), ?_, ?_⟩
  · simp [assignNodeIds, List.getElem?_map, hi]
  · simp [List.getElem?_map, List.getElem?_enum, hp, nodeIdFor]

/-- Witness for C2 at a two-sequence input: both position-0 screenshots
map to the reserved id even though their contents differ, and a
position-1 screenshot maps to its fingerprint id. -/
theorem firstScreenshot_reserved_nodeId_witness :
    (∃ row, (assignNodeIds (fun s => s) [["x", "u"], ["y"]])[0]? = some row ∧
      row[0]? = some (if 0 = 0 then conditionFirstNodeId else "node-" ++ "x")) ∧
    (∃ row, (assignNodeIds (fun s => s) [["x", "u"], ["y"]])[1]? = some row ∧
      row[0]? = some (if 0 = 0 then conditionFirstNodeId else "node-" ++ "y")) ∧
    (∃ row, (assignNodeIds (fun s => s) [["x", "u"], ["y"]])[0]? = some row ∧
      row[1]? = some (if 1 = 0 then conditionFirstNodeId else "node-" ++ "u")) :=
  ⟨firstScreenshot_reserved_nodeId (fun s => s) [["x", "u"], ["y"]] 0 0 ["x", "u"] "x"
      (by decide) (by decide),
   firstScreenshot_reserved_nodeId (fun s => s) [["x", "u"], ["y"]] 1 0 ["y"] "y"
      (by decide) (by decide),
   firstScreenshot_reserved_nodeId (fun s => s) [["x", "u"], ["y"]] 0 1 ["x", "u"] "u"
      (by decide) (by decide)⟩

/-! ### Claim C3 -/

/-- Claim C3 counterexample: the hashes `"0"` and `"00"` are both
non-empty and have different lengths, yet `hammingDistance` returns `0`
(the shorter hash is zero-padded), not the maximal distance `8` that
4 bits per nibble of the longer hash would give. -/
theorem hammingDistance_length_mismatch_counterexample :
    ("0" : String) ≠ "" ∧ ("00" : String) ≠ "" ∧
    ("0" : String).length ≠ ("00" : String).length ∧
    max ("0" : String).length ("00" : String).length * 4 = 8 ∧
    hammingDistance "0" "00" = 0 ∧ hammingDistance "0" "00" ≠ 8 := by
  refine ⟨by decide, by decide, by decide, by decide, by decide, by decide⟩

/-- Claim C3 amended: `hammingDistance` treats a length mismatch as
maximal distance only when exactly one hash is empty; when both are
non-empty the shorter one is right-padded with `'0'` nibbles and the
result is content-dependent — in particular a hash compared against its
own zero-padded extension yields distance 0 rather than the maximal
`4 * (longer length)` even though the lengths differ. -/
theorem hammingDistance_length_mismatch_amended (a : String) (k : Nat) (ha : a ≠ "") :
    hammingDistance a "" = a.length * 4 ∧
    hammingDistance a ⟨a.data ++ List.replicate k '0'⟩ = 0 ∧
    (0 < k → (⟨a.data ++ List.replicate k '0'⟩ : String).length ≠ a.length) := by
  have hlen : a.length ≠ 0 := string_ne_iff_length ha
  have hblen : (⟨a.data ++ List.replicate k '0'⟩ : String).length = a.length + k := by
    show (a.data ++ List.replicate k '0').length = a.data.length + k
    simp
  refine ⟨?_, ?_, ?_⟩
  · rw [hammingDistance]
    rw [if_neg (fun h => hlen h.1), if_pos (Or.inr (by decide : ("" : String).length = 0))]
    show max a.length 0 * 4 = a.length * 4
    rw [Nat.max_zero]
  · rw [hammingDistance]
    have hc2 : ¬(a.length = 0 ∨ (⟨a.data ++ List.replicate k '0'⟩ : String).length = 0) := by
      intro h
      rcases h with h | h
      · exact hlen h
      · rw [hblen] at h
        omega
    rw [if_neg (fun h => hlen h.1), if_neg hc2]
    have hmax : max a.length (⟨a.data ++ List.replicate k '0'⟩ : String).length
        = a.length + k := by
      rw [hblen]; omega
    have hpad1 : (padEnd a (a.length + k)).data = a.data ++ List.replicate k '0' := by
      show a.data ++ List.replicate (a.length + k - a.data.length) '0'
          = a.data ++ List.replicate k '0'
      have : a.length + k - a.data.length = k := by
        show a.data.length + k - a.data.length = k
        omega
      rw [this]
    have hpad2 : (padEnd (⟨a.data ++ List.replicate k '0'⟩ : String) (a.length + k)).data
        = a.data ++ List.replicate k '0' := by
      show (a.data ++ List.replicate k '0') ++
          List.replicate (a.length + k - (a.data ++ List.replicate k '0').length) '0'
          = a.data ++ List.replicate k '0'
      have : a.length + k - (a.data ++ List.replicate k '0').length = 0 := by
        rw [List.length_append, List.length_replicate]
        show a.data.length + k - (a.data.length + k) = 0
        omega
      rw [this]
      simp
    rw [hmax, hpad1, hpad2]
    exact nibbleXorDistance_self _
  · intro hk
    rw [hblen]
    omega

/-- Witness for the amended C3 at `a = "f"`, `k = 1`. -/
theorem hammingDistance_length_mismatch_amended_witness :
    ("f" : String) ≠ "" ∧
    (hammingDistance "f" "" = ("f" : String).length * 4 ∧
      hammingDistance "f" ⟨("f" : String).data ++ List.replicate 1 '0'⟩ = 0 ∧
      (0 < 1 → (⟨("f" : String).data ++ List.replicate 1 '0'⟩ : String).length
        ≠ ("f" : String).length)) :=
  ⟨by decide, hammingDistance_length_mismatch_amended "f" 1 (by decide)⟩

/-! ### Claim C9 -/

theorem registerAndSchedule_inv {s : PlayerState} (h : TimersInv s) (timerId : Nat) :
    TimersInv (registerAndSchedule s timerId) := by
  intro t ht
  simp only [registerAndSchedule, List.mem_append, List.mem_singleton] at ht
  rcases ht with ht | ht
  · rcases h t ht with ⟨h1, h2⟩
    refine ⟨h1, ?_⟩
    show (s.tracked ++ [timerId]).contains t.1 = true
    rw [List.elem_iff] at h2 ⊢
    exact List.mem_append_left _ h2
  · subst ht
    refine ⟨rfl, ?_⟩
    show (s.tracked ++ [timerId]).contains timerId = true
    rw [List.elem_iff]
    exact List.mem_append_right _ (List.mem_singleton.mpr rfl)

theorem registerFold_inv {s : PlayerState} (h : TimersInv s) (ts : List Nat) :
    TimersInv (ts.foldl registerAndSchedule s) := by
  induction ts generalizing s with
  | nil => exact h
  | cons t ts ih => exact ih (registerAndSchedule_inv h t)

theorem registerFold_currentReq (ts : List Nat) (s : PlayerState) :
    (ts.foldl registerAndSchedule s).currentReq = s.currentReq := by
  induction ts generalizing s with
  | nil => rfl
  | cons t ts ih => exact ih (registerAndSchedule s t)

theorem cancel_pending_empty {s : PlayerState} (h : TimersInv s) :
    (cancelHighlightTimers s).pending = [] := by
  simp only [cancelHighlightTimers]
  rw [List.filter_eq_nil_iff]
  intro t ht
  rw [(h t ht).2]
  simp

/-- Claim C9: processing a new highlight request first cancels every
timer of the superseded playback, so no pending timer of the previous
playback survives and every timer pending afterwards belongs to the new
request; the invariant is preserved by request processing and timer
firing, and cancellation is idempotent. -/
theorem highlight_cancellation (s : PlayerState) (req : Nat) (newTimers : List Nat)
    (timerId : Nat) (spawned : List Nat) (hInv : TimersInv s) :
    (∀ t ∈ (processHighlightRequest s req newTimers).pending, t.2 = req) ∧
    TimersInv (processHighlightRequest s req newTimers) ∧
    TimersInv (fireTimer s timerId spawned) ∧
    cancelHighlightTimers (cancelHighlightTimers s) = cancelHighlightTimers s := by
  have hbase : TimersInv { cancelHighlightTimers s with currentReq := req } := by
    intro t ht
    rw [show ({ cancelHighlightTimers s with currentReq := req } : PlayerState).pending
        = (cancelHighlightTimers s).pending from rfl, cancel_pending_empty hInv] at ht
    cases ht
  have hproc : TimersInv (processHighlightRequest s req newTimers) :=
    registerFold_inv hbase newTimers
  refine ⟨?_, hproc, ?_, ?_⟩
  · intro t ht
    have := (hproc t ht).1
    rw [this, processHighlightRequest, registerFold_currentReq]
  · rw [fireTimer]
    split
    · apply registerFold_inv
      intro t ht
      have ht' : t ∈ s.pending := List.mem_of_mem_filter ht
      exact hInv t ht'
    · exact hInv
  · show cancelHighlightTimers (cancelHighlightTimers s) = cancelHighlightTimers s
    simp only [cancelHighlightTimers]
    congr 1
    exact List.filter_eq_self.mpr (fun t _ => rfl)

/-- Witness for C9 at a concrete mid-flight state: one pending timer of
request 0 is superseded by request 1. -/
theorem highlight_cancellation_witness :
    (∀ t ∈ (processHighlightRequest
        { pending := [(7, 0)], tracked := [7], currentReq := 0 } 1 [8, 9]).pending,
      t.2 = 1) ∧
    TimersInv (processHighlightRequest
        { pending := [(7, 0)], tracked := [7], currentReq := 0 } 1 [8, 9]) ∧
    TimersInv (fireTimer { pending := [(7, 0)], tracked := [7], currentReq := 0 } 7 [8]) ∧
    cancelHighlightTimers (cancelHighlightTimers
        { pending := [(7, 0)], tracked := [7], currentReq := 0 })
      = cancelHighlightTimers { pending := [(7, 0)], tracked := [7], currentReq := 0 } :=
  highlight_cancellation { pending := [(7, 0)], tracked := [7], currentReq := 0 } 1 [8, 9]
    7 [8] (by intro t ht; simp only [List.mem_singleton] at ht; subst ht; exact ⟨rfl, rfl⟩)

/-! ### Claim C5 -/

theorem foldl_preserves {α β : Type} (P : β → Prop) (f : β → α → β)
    (inv : ∀ st x, P st → P (f st x)) :
    ∀ (xs : List α) (st : β), P st → P (xs.foldl f st) := by
  intro xs
  induction xs with
  | nil => intro st h; exact h
  | cons x xs ih => intro st h; exact ih (f st x) (inv st x h)

theorem upsertLink_source_ne_target {links : List Link} {s t : String} {i p : Nat}
    (hst : s ≠ t) (h : ∀ l ∈ links, l.source ≠ l.target) :
    ∀ l ∈ upsertLink links s t i p, l.source ≠ l.target := by
  intro l hl
  simp only [upsertLink] at hl
  rcases List.mem_map.mp hl with ⟨y, hy, rfl⟩
  have hyst : y.source ≠ y.target := by
    by_cases hb : (links.any fun l => l.id == linkKey s t i) = true
    · rw [if_pos hb] at hy
      exact h y hy
    · rw [if_neg hb] at hy
      rcases List.mem_append.mp hy with hy' | hy'
      · exact h y hy'
      · rcases List.mem_singleton.mp hy' with rfl
        exact hst
  by_cases hc : (y.id == linkKey s t i) = true
  · rw [if_pos hc]
    exact hyst
  · rw [if_neg hc]
    exact hyst

theorem buildLinksForSeq_source_ne_target {links : List Link} {seqIdx : Nat}
    {ids : List String} (h : ∀ l ∈ links, l.source ≠ l.target) :
    ∀ l ∈ buildLinksForSeq links seqIdx ids, l.source ≠ l.target := by
  rw [buildLinksForSeq]
  refine foldl_preserves (fun st : List Link => ∀ l ∈ st, l.source ≠ l.target) _ ?_ _ links h
  intro st pos hst
  rw [linkStep]
  rcases hcur : ids.get? pos with _ | cur
  · simpa [hcur] using hst
  rcases hnext : ids.get? (pos + 1) with _ | next
  · simpa [hcur, hnext] using hst
  simp only [hcur, hnext]
  by_cases he : (cur.isEmpty || next.isEmpty) = true
  · rw [if_pos he]
    exact hst
  · rw [if_neg he]
    by_cases heq : (cur == next) = true
    · rw [if_pos heq]
      exact hst
    · rw [if_neg heq]
      exact upsertLink_source_ne_target (by simpa using heq) hst

/-- Claim C5: the links list returned by the graph build never contains
a link whose source node id equals its target node id; consecutive
identical node ids are skipped by the links loop. -/
theorem build_no_self_links (seqNodeIds : List (List String)) :
    ∀ l ∈ buildLinks seqNodeIds, l.source ≠ l.target := by
  rw [buildLinks]
  refine foldl_preserves (fun st : List Link => ∀ l ∈ st, l.source ≠ l.target) _ ?_ _ []
    (by intro l hl; cases hl)
  intro st p hst
  exact buildLinksForSeq_source_ne_target hst

/-- Witness for C5: the single link produced by a two-step sequence is in
the build output and has distinct endpoints. -/
theorem build_no_self_links_witness :
    ({ id := "a__b__0", source := "a", target := "b", count := 1,
       occurrences := [(0, 0)], sequenceIndex := some 0, synthetic := false } : Link)
      ∈ buildLinks [["a", "b"]] ∧
    ({ id := "a__b__0", source := "a", target := "b", count := 1,
       occurrences := [(0, 0)], sequenceIndex := some 0, synthetic := false } : Link).source
      ≠ ({ id := "a__b__0", source := "a", target := "b", count := 1,
           occurrences := [(0, 0)], sequenceIndex := some 0, synthetic := false } : Link).target :=
  ⟨by decide, build_no_self_links [["a", "b"]] _ (by decide)⟩

/-! ### Claim C8 -/

theorem map_id_of_update (nodes : List Node) (nid : String) (occ : Nat × Nat) :
    (nodes.map (fun n =>
      if n.id == nid then
        { n with occurrences := n.occurrences ++ [occ], weight := n.weight + 1 }
      else n)).map Node.id = nodes.map Node.id := by
  induction nodes with
  | nil => rfl
  | cons n ns ih =>
    simp only [List.map_cons, ih, List.cons.injEq, and_true]
    by_cases hc : (n.id == nid) = true
    · rw [if_pos hc]
    · rw [if_neg hc]

theorem insertOcc_id_mem (nodes : List Node) (nid h : String) (fl : Bool)
    (occ : Nat × Nat) (x : String) :
    x ∈ (insertOcc nodes nid h fl occ).map Node.id ↔ x = nid ∨ x ∈ nodes.map Node.id := by
  simp only [insertOcc]
  by_cases hb : (nodes.any fun n => n.id == nid) = true
  · rw [if_pos hb, map_id_of_update]
    have hnid : nid ∈ nodes.map Node.id := by
      rcases List.any_eq_true.mp hb with ⟨n, hn, he⟩
      rcases eq_of_beq he with rfl
      exact List.mem_map_of_mem Node.id hn
    constructor
    · intro hx
      exact Or.inr hx
    · intro hx
      rcases hx with rfl | hx
      · exact hnid
      · exact hx
  · rw [if_neg hb, map_id_of_update]
    rw [List.map_append]
    simp only [List.map_cons, List.map_nil, List.mem_append, List.mem_singleton]
    constructor
    · intro hx
      rcases hx with hx | hx
      · exact Or.inr hx
      · exact Or.inl hx
    · intro hx
      rcases hx with hx | hx
      · exact Or.inr hx
      · exact Or.inl hx

theorem buildNodesFrom_fold_id_mem (hashFn : String → String)
    (order : List (Nat × Nat × String)) :
    ∀ (ns : List Node) (x : String),
    (x ∈ (order.foldl (fun nodes o =>
        insertOcc nodes (nodeIdFor hashFn o.2.1 o.2.2) (nodeHashFor hashFn o.2.1 o.2.2)
          (o.2.1 == 0) (o.1, o.2.1)) ns).map Node.id ↔
      x ∈ ns.map Node.id ∨ ∃ o ∈ order, x = nodeIdFor hashFn o.2.1 o.2.2) := by
  induction order with
  | nil => intro ns x; simp
  | cons o os ih =>
    intro ns x
    rw [List.foldl_cons, ih, insertOcc_id_mem]
    constructor
    · intro hx
      rcases hx with (rfl | hx) | hx
      · exact Or.inr ⟨o, List.mem_cons_self o os, rfl⟩
      · exact Or.inl hx
      · rcases hx with ⟨o', ho', rfl⟩
        exact Or.inr ⟨o', List.mem_cons_of_mem o ho', rfl⟩
    · intro hx
      rcases hx with hx | hx
      · exact Or.inl (Or.inr hx)
      · rcases hx with ⟨o', ho', rfl⟩
        rcases List.mem_cons.mp ho' with rfl | ho'
        · exact Or.inl (Or.inl rfl)
        · exact Or.inr ⟨o', ho', rfl⟩

theorem buildNodesFrom_id_mem (hashFn : String → String)
    (order : List (Nat × Nat × String)) (x : String) :
    x ∈ (buildNodesFrom hashFn order).map Node.id ↔
      ∃ o ∈ order, x = nodeIdFor hashFn o.2.1 o.2.2 := by
  rw [buildNodesFrom, buildNodesFrom_fold_id_mem]
  simp

/-- Claim C8: for two runs of the graph build over the same sequences
with identical fingerprinting results, the node id sets of the outputs
agree and the link lists (hence link id sets) are equal, regardless of
the completion order of the asynchronous per-screenshot hashing
operations. -/
theorem build_order_deterministic (hashFn : String → String)
    (seqs : List (List String)) (o1 o2 : List (Nat × Nat × String))
    (h1 : o1.Perm (occurrenceList seqs)) (h2 : o2.Perm (occurrenceList seqs)) :
    (∀ x, x ∈ (buildGraphOrdered hashFn seqs o1).1.map Node.id ↔
      x ∈ (buildGraphOrdered hashFn seqs o2).1.map Node.id) ∧
    (buildGraphOrdered hashFn seqs o1).2 = (buildGraphOrdered hashFn seqs o2).2 := by
  refine ⟨?_, rfl⟩
  intro x
  rw [show (buildGraphOrdered hashFn seqs o1).1 = buildNodesFrom hashFn o1 from rfl,
    show (buildGraphOrdered hashFn seqs o2).1 = buildNodesFrom hashFn o2 from rfl,
    buildNodesFrom_id_mem, buildNodesFrom_id_mem]
  constructor
  · intro hx
    rcases hx with ⟨o, ho, rfl⟩
    exact ⟨o, h2.mem_iff.mpr (h1.mem_iff.mp ho), rfl⟩
  · intro hx
    rcases hx with ⟨o, ho, rfl⟩
    exact ⟨o, h1.mem_iff.mpr (h2.mem_iff.mp ho), rfl⟩

/-- Witness for C8 at a concrete input with the canonical completion
order against a transposed completion order. -/
theorem build_order_deterministic_witness :
    ([((0 : Nat), (0 : Nat), "a"), (0, 1, "b")].Perm
      (occurrenceList [["a", "b"]])) ∧
    ((∀ x, x ∈ (buildGraphOrdered (fun s => s) [["a", "b"]]
        [(0, 0, "a"), (0, 1, "b")]).1.map Node.id ↔
      x ∈ (buildGraphOrdered (fun s => s) [["a", "b"]]
        [(0, 1, "b"), (0, 0, "a")]).1.map Node.id) ∧
    (buildGraphOrdered (fun s => s) [["a", "b"]] [(0, 0, "a"), (0, 1, "b")]).2
      = (buildGraphOrdered (fun s => s) [["a", "b"]] [(0, 1, "b"), (0, 0, "a")]).2) :=
  ⟨by decide,
   build_order_deterministic (fun s => s) [["a", "b"]]
     [(0, 0, "a"), (0, 1, "b")] [(0, 1, "b"), (0, 0, "a")]
     (by decide) (by decide)⟩

/-! ### Cluster-scan invariants (claims C4, C7, C10) -/

theorem any_key_eq_false {asg : List (String × String)} {x : String}
    (h : x ∉ asg.map Prod.fst) : (asg.any fun p => p.1 == x) = false := by
  rw [List.any_eq_false]
  intro p hp hbeq
  exact h (List.mem_map.mpr ⟨p, hp, eq_of_beq hbeq⟩)

theorem key_mem_of_any {asg : List (String × String)} {x : String}
    (h : (asg.any fun p => p.1 == x) = true) : x ∈ asg.map Prod.fst := by
  rcases List.any_eq_true.mp h with ⟨p, hp, hbeq⟩
  exact List.mem_map.mpr ⟨p, hp, eq_of_beq hbeq⟩

theorem not_key_mem_of_any_false {asg : List (String × String)} {x : String}
    (h : ¬ (asg.any fun p => p.1 == x) = true) : x ∉ asg.map Prod.fst := by
  intro hmem
  rcases List.mem_map.mp hmem with ⟨p, hp, rfl⟩
  exact h (List.any_eq_true.mpr ⟨p, hp, beq_self_eq_true _⟩)

theorem joinFold_spec (seed : Node) (cid : String) (thr : Nat) :
    ∀ (rest : List Node) (ms : List Node) (asg : List (String × String))
      (base : List String),
    asg.map Prod.fst = base ++ ms.map Node.id →
    (asg.map Prod.fst).Nodup →
    (∀ m ∈ ms, m.isConditionFirst = seed.isConditionFirst) →
    ((rest.foldl (clusterJoinStep seed cid thr) (ms, asg)).2.map Prod.fst
        = base ++ (rest.foldl (clusterJoinStep seed cid thr) (ms, asg)).1.map Node.id ∧
      ((rest.foldl (clusterJoinStep seed cid thr) (ms, asg)).2.map Prod.fst).Nodup ∧
      (∀ m ∈ (rest.foldl (clusterJoinStep seed cid thr) (ms, asg)).1,
        m ∈ ms ∨ m ∈ rest) ∧
      (∀ m ∈ (rest.foldl (clusterJoinStep seed cid thr) (ms, asg)).1,
        m.isConditionFirst = seed.isConditionFirst) ∧
      (∀ q ∈ asg, q ∈ (rest.foldl (clusterJoinStep seed cid thr) (ms, asg)).2) ∧
      (∃ extra, (rest.foldl (clusterJoinStep seed cid thr) (ms, asg)).1 = ms ++ extra)) := by
  intro rest
  induction rest with
  | nil =>
    intro ms asg base h1 h2 h3
    exact ⟨h1, h2, fun m hm => Or.inl hm, h3, fun q hq => hq, [], by simp⟩
  | cons cand rest ih =>
    intro ms asg base h1 h2 h3
    rw [List.foldl_cons]
    have hsame : ∀ hstep : clusterJoinStep seed cid thr (ms, asg) cand = (ms, asg),
        (List.foldl (clusterJoinStep seed cid thr)
            (clusterJoinStep seed cid thr (ms, asg) cand) rest).2.map Prod.fst
          = base ++ (List.foldl (clusterJoinStep seed cid thr)
            (clusterJoinStep seed cid thr (ms, asg) cand) rest).1.map Node.id ∧
        ((List.foldl (clusterJoinStep seed cid thr)
            (clusterJoinStep seed cid thr (ms, asg) cand) rest).2.map Prod.fst).Nodup ∧
        (∀ m ∈ (List.foldl (clusterJoinStep seed cid thr)
            (clusterJoinStep seed cid thr (ms, asg) cand) rest).1,
          m ∈ ms ∨ m ∈ cand :: rest) ∧
        (∀ m ∈ (List.foldl (clusterJoinStep seed cid thr)
            (clusterJoinStep seed cid thr (ms, asg) cand) rest).1,
          m.isConditionFirst = seed.isConditionFirst) ∧
        (∀ q ∈ asg, q ∈ (List.foldl (clusterJoinStep seed cid thr)
            (clusterJoinStep seed cid thr (ms, asg) cand) rest).2) ∧
        (∃ extra, (List.foldl (clusterJoinStep seed cid thr)
            (clusterJoinStep seed cid thr (ms, asg) cand) rest).1 = ms ++ extra) := by
      intro hstep
      rw [hstep]
      rcases ih ms asg base h1 h2 h3 with ⟨c1, c2, c3, c4, c5, c6⟩
      refine ⟨c1, c2, ?_, c4, c5, c6⟩
      intro m hm
      rcases c3 m hm with hm' | hm'
      · exact Or.inl hm'
      · exact Or.inr (List.mem_cons_of_mem _ hm')
    by_cases ha : (asg.any fun p => p.1 == cand.id) = true
    · exact hsame (by rw [clusterJoinStep, if_pos ha])
    by_cases hf : (seed.isConditionFirst != cand.isConditionFirst) = true
    · exact hsame (by rw [clusterJoinStep, if_neg ha, if_pos hf])
    by_cases hs : hashesAreSimilar seed.hash cand.hash thr
    case neg =>
      exact hsame (by rw [clusterJoinStep, if_neg ha, if_neg hf, if_neg hs])
    have hnot : cand.id ∉ asg.map Prod.fst := not_key_mem_of_any_false ha
    have hflag : cand.isConditionFirst = seed.isConditionFirst := by
      have hbf : (seed.isConditionFirst != cand.isConditionFirst) = false :=
        Bool.eq_false_iff.mpr hf
      exact (bne_eq_false_iff_eq.mp hbf).symm
    rw [show clusterJoinStep seed cid thr (ms, asg) cand
        = (ms ++ [cand], asg ++ [(cand.id, cid)]) from by
      rw [clusterJoinStep, if_neg ha, if_neg hf, if_pos hs]]
    have h1' : (asg ++ [(cand.id, cid)]).map Prod.fst
        = base ++ (ms ++ [cand]).map Node.id := by
      rw [List.map_append, List.map_append, h1, List.append_assoc]
      rfl
    have h2' : ((asg ++ [(cand.id, cid)]).map Prod.fst).Nodup := by
      rw [List.map_append]
      refine List.nodup_append.mpr ⟨h2, List.nodup_singleton _, ?_⟩
      intro a ha hb
      rcases List.mem_singleton.mp hb with rfl
      exact hnot ha
    have h3' : ∀ m ∈ ms ++ [cand], m.isConditionFirst = seed.isConditionFirst := by
      intro m hm
      rcases List.mem_append.mp hm with hm' | hm'
      · exact h3 m hm'
      · rcases List.mem_singleton.mp hm' with rfl
        exact hflag
    rcases ih (ms ++ [cand]) (asg ++ [(cand.id, cid)]) base h1' h2' h3' with
      ⟨c1, c2, c3, c4, c5, c6⟩
    refine ⟨c1, c2, ?_, c4, ?_, ?_⟩
    · intro m hm
      rcases c3 m hm with hm' | hm'
      · rcases List.mem_append.mp hm' with hm'' | hm''
        · exact Or.inl hm''
        · rcases List.mem_singleton.mp hm'' with rfl
          exact Or.inr (List.mem_cons_self _ _)
      · exact Or.inr (List.mem_cons_of_mem _ hm')
    · intro q hq
      exact c5 q (List.mem_append_left _ hq)
    · rcases c6 with ⟨extra, hex⟩
      exact ⟨cand :: extra, by rw [hex, List.append_assoc]; rfl⟩

theorem clustersAux_spec (thr : Nat) (L : List Node) :
    ∀ (l : List Node) (clusters : List Cluster) (asg : List (String × String)),
    l ⊆ L →
    asg.map Prod.fst = (clusters.map Cluster.nodeIds).flatten →
    (asg.map Prod.fst).Nodup →
    (∀ c ∈ clusters, c.nodeIds ≠ [] ∧ ∃ b, ∀ i ∈ c.nodeIds,
      ∃ n, n ∈ L ∧ n.id = i ∧ n.isConditionFirst = b) →
    ((buildClustersAux thr l clusters asg).2.map Prod.fst
        = ((buildClustersAux thr l clusters asg).1.map Cluster.nodeIds).flatten ∧
      ((buildClustersAux thr l clusters asg).2.map Prod.fst).Nodup ∧
      (∀ n ∈ l, n.id ∈ (buildClustersAux thr l clusters asg).2.map Prod.fst) ∧
      (∀ x ∈ asg.map Prod.fst, x ∈ (buildClustersAux thr l clusters asg).2.map Prod.fst) ∧
      (∀ c ∈ (buildClustersAux thr l clusters asg).1, c.nodeIds ≠ [] ∧
        ∃ b, ∀ i ∈ c.nodeIds, ∃ n, n ∈ L ∧ n.id = i ∧ n.isConditionFirst = b)) := by
  intro l
  induction l with
  | nil =>
    intro clusters asg hsub h1 h2 h3
    rw [buildClustersAux]
    exact ⟨h1, h2, fun n hn => absurd hn (List.not_mem_nil n), fun x hx => hx, h3⟩
  | cons node rest ih =>
    intro clusters asg hsub h1 h2 h3
    have hsub' : rest ⊆ L := fun x hx => hsub (List.mem_cons_of_mem _ hx)
    rw [buildClustersAux]
    by_cases ha : (asg.any fun p => p.1 == node.id) = true
    · rw [if_pos ha]
      rcases ih clusters asg hsub' h1 h2 h3 with ⟨c1, c2, c3, c4, c5⟩
      refine ⟨c1, c2, ?_, c4, c5⟩
      intro n hn
      rcases List.mem_cons.mp hn with rfl | hn'
      · exact c4 _ (key_mem_of_any ha)
      · exact c3 n hn'
    · rw [if_neg ha]
      have hnot : node.id ∉ asg.map Prod.fst := not_key_mem_of_any_false ha
      rcases joinFold_spec node ("cluster-" ++ toString clusters.length) thr rest
          [node] (asg ++ [(node.id, "cluster-" ++ toString clusters.length)])
          (asg.map Prod.fst)
          (by rw [List.map_append]; rfl)
          (by
            rw [List.map_append]
            refine List.nodup_append.mpr ⟨h2, List.nodup_singleton _, ?_⟩
            intro a hmem hb
            rcases List.mem_singleton.mp hb with rfl
            exact hnot hmem)
          (by intro m hm; rcases List.mem_singleton.mp hm with rfl; rfl) with
        ⟨j1, j2, j3, j4, j5, j6⟩
      have hclusters' : ∀ c ∈ clusters ++
          [{ id := "cluster-" ++ toString clusters.length,
             nodeIds := (rest.foldl (clusterJoinStep node
               ("cluster-" ++ toString clusters.length) thr)
               ([node], asg ++ [(node.id, "cluster-" ++ toString clusters.length)])).1.map
                 Node.id,
             representativeNodeId := node.id }],
          c.nodeIds ≠ [] ∧ ∃ b, ∀ i ∈ c.nodeIds,
            ∃ n, n ∈ L ∧ n.id = i ∧ n.isConditionFirst = b := by
        intro c hc
        rcases List.mem_append.mp hc with hc' | hc'
        · exact h3 c hc'
        · rcases List.mem_singleton.mp hc' with rfl
          constructor
          · rcases j6 with ⟨extra, hex⟩
            simp [hex]
          · refine ⟨node.isConditionFirst, ?_⟩
            intro i hi
            rcases List.mem_map.mp hi with ⟨m, hm, rfl⟩
            have hmem : m ∈ [node] ∨ m ∈ rest := j3 m hm
            have hmL : m ∈ L := by
              rcases hmem with hm' | hm'
              · rcases List.mem_singleton.mp hm' with rfl
                exact hsub (List.mem_cons_self _ _)
              · exact hsub' hm'
            exact ⟨m, hmL, rfl, j4 m hm⟩
      have hflatten : (rest.foldl (clusterJoinStep node
            ("cluster-" ++ toString clusters.length) thr)
            ([node], asg ++ [(node.id, "cluster-" ++ toString clusters.length)])).2.map
              Prod.fst
          = ((clusters ++
              [({ id := "cluster-" ++ toString clusters.length,
                  nodeIds := (rest.foldl (clusterJoinStep node
                    ("cluster-" ++ toString clusters.length) thr)
                    ([node], asg ++ [(node.id,
                      "cluster-" ++ toString clusters.length)])).1.map Node.id,
                  representativeNodeId := node.id } : Cluster)]).map Cluster.nodeIds).flatten := by
        rw [j1, h1, List.map_append, List.flatten_append]
        simp
      rcases ih _ _ hsub' hflatten j2 hclusters' with ⟨c1, c2, c3, c4, c5⟩
      refine ⟨c1, c2, ?_, ?_, c5⟩
      · intro n hn
        rcases List.mem_cons.mp hn with rfl | hn'
        · refine c4 _ ?_
          rw [j1]
          refine List.mem_append.mpr (Or.inr ?_)
          rcases j6 with ⟨extra, hex⟩
          rw [hex]
          exact List.mem_map_of_mem _ (List.mem_append_left _ (List.mem_singleton.mpr rfl))
        · exact c3 n hn'
      · intro x hx
        refine c4 x ?_
        rw [j1, h1]
        rw [h1] at hx
        exact List.mem_append_left _ hx

theorem find_key_isSome {l : List (String × String)} {x : String}
    (h : x ∈ l.map Prod.fst) : (l.find? fun p => p.1 == x) ≠ none := by
  intro hnone
  rw [List.find?_eq_none] at hnone
  rcases List.mem_map.mp h with ⟨q, hq, rfl⟩
  exact hnone q hq (beq_self_eq_true _)

theorem countP_eq_one_of_nodup_flatten {cs : List Cluster} {x : String}
    (hnd : ((cs.map Cluster.nodeIds).flatten).Nodup)
    (hx : x ∈ (cs.map Cluster.nodeIds).flatten) :
    cs.countP (fun c => decide (x ∈ c.nodeIds)) = 1 := by
  induction cs with
  | nil => cases hx
  | cons c cs ih =>
    rw [List.map_cons, List.flatten_cons] at hnd hx
    rw [List.countP_cons]
    have hdisj := List.disjoint_of_nodup_append hnd
    rcases List.mem_append.mp hx with h | h
    · have hnot : x ∉ (cs.map Cluster.nodeIds).flatten := fun hmem => hdisj h hmem
      have hz : cs.countP (fun c => decide (x ∈ c.nodeIds)) = 0 := by
        rw [List.countP_eq_zero]
        intro c' hc'
        simp only [decide_eq_true_eq]
        intro hxc'
        exact hnot (List.mem_flatten.mpr ⟨c'.nodeIds, List.mem_map_of_mem _ hc', hxc'⟩)
      rw [hz]
      simp [h]
    · have hnotc : x ∉ c.nodeIds := fun hxc => hdisj hxc h
      rw [ih (List.Nodup.of_append_right hnd) h]
      simp [hnotc]

/-! ### Claim C10 -/

/-- Claim C10: after the clustering pass every node in the output is
assigned a non-null `clusterId`, and the returned clusters partition the
node ids: every node's id appears in the `nodeIds` list of exactly one
returned cluster. -/
theorem cluster_partition (nodes : List Node) (thr : Nat) :
    (∀ n ∈ (buildClusters nodes thr).2, n.clusterId ≠ none) ∧
    (∀ n ∈ (buildClusters nodes thr).2,
      (buildClusters nodes thr).1.countP (fun c => decide (n.id ∈ c.nodeIds)) = 1) := by
  rcases clustersAux_spec thr nodes nodes [] [] (fun x hx => hx) rfl List.nodup_nil
    (fun c hc => absurd hc (List.not_mem_nil c)) with ⟨c1, c2, c3, c4, c5⟩
  constructor
  · intro n hn
    rcases List.mem_map.mp hn with ⟨m, hm, rfl⟩
    have hfind := find_key_isSome (c3 m hm)
    rcases hh : ((buildClustersAux thr nodes [] []).2.find? fun p => p.1 == m.id) with
      _ | q
    · exact absurd hh hfind
    · show (((buildClustersAux thr nodes [] []).2.find? fun p => p.1 == m.id).map
        (fun p => p.2)) ≠ none
      rw [hh]
      exact Option.noConfusion
  · intro n hn
    rcases List.mem_map.mp hn with ⟨m, hm, rfl⟩
    have hmem : m.id ∈ ((buildClustersAux thr nodes [] []).1.map Cluster.nodeIds).flatten :=
      c1 ▸ c3 m hm
    have hnd : (((buildClustersAux thr nodes [] []).1.map Cluster.nodeIds).flatten).Nodup :=
      c1 ▸ c2
    exact countP_eq_one_of_nodup_flatten hnd hmem

/-! ### Claim C7 -/

/-- Claim C7: no cluster in the clustering output ever contains a
first-of-run (reserved start) node together with a non-first node: two
nodes whose ids land in the same cluster always agree on
`isConditionFirst`. -/
theorem cluster_no_mixed_first (nodes : List Node) (thr : Nat)
    (hids : (nodes.map Node.id).Nodup) :
    ∀ c ∈ (buildClusters nodes thr).1, ∀ n1 ∈ nodes, ∀ n2 ∈ nodes,
      n1.id ∈ c.nodeIds → n2.id ∈ c.nodeIds →
      n1.isConditionFirst = n2.isConditionFirst := by
  rcases clustersAux_spec thr nodes nodes [] [] (fun x hx => hx) rfl List.nodup_nil
    (fun c hc => absurd hc (List.not_mem_nil c)) with ⟨-, -, -, -, c5⟩
  intro c hc n1 hn1 n2 hn2 h1 h2
  rcases (c5 c hc).2 with ⟨b, hb⟩
  rcases hb n1.id h1 with ⟨m1, hm1, hid1, hf1⟩
  rcases hb n2.id h2 with ⟨m2, hm2, hid2, hf2⟩
  have e1 : m1 = n1 := List.inj_on_of_nodup_map hids hm1 hn1 (by rw [hid1])
  have e2 : m2 = n2 := List.inj_on_of_nodup_map hids hm2 hn2 (by rw [hid2])
  rw [← e1, ← e2, hf1, hf2]

/-- Demo nodes for the C7 witness: two non-first nodes with identical
hashes that cluster together. -/
def demoNodeE : Node :=
  { id := "ne", hash := "aa", isConditionFirst := false, occurrences := [],
    weight := 1, clusterId := none }

def demoNodeF : Node :=
  { id := "nf", hash := "ab", isConditionFirst := false, occurrences := [],
    weight := 1, clusterId := none }

/-- Witness for C7 at a concrete clustered input. -/
theorem cluster_no_mixed_first_witness :
    (([demoNodeE, demoNodeF].map Node.id).Nodup) ∧
    (∀ c ∈ (buildClusters [demoNodeE, demoNodeF] 4).1,
      ∀ n1 ∈ [demoNodeE, demoNodeF], ∀ n2 ∈ [demoNodeE, demoNodeF],
      n1.id ∈ c.nodeIds → n2.id ∈ c.nodeIds →
      n1.isConditionFirst = n2.isConditionFirst) :=
  ⟨by decide, cluster_no_mixed_first [demoNodeE, demoNodeF] 4 (by decide)⟩

/-! ### Claim C4 -/

theorem joinFold_no_similar (seed : Node) (cid : String) (thr : Nat) :
    ∀ (rest : List Node) (st : List Node × List (String × String)),
    (∀ cand ∈ rest, ¬ hashesAreSimilar seed.hash cand.hash thr) →
    rest.foldl (clusterJoinStep seed cid thr) st = st := by
  intro rest
  induction rest with
  | nil => intro st _; rfl
  | cons cand rest ih =>
    intro st h
    rw [List.foldl_cons]
    have hstep : clusterJoinStep seed cid thr st cand = st := by
      rw [clusterJoinStep]
      by_cases ha : (st.2.any fun p => p.1 == cand.id) = true
      · rw [if_pos ha]
      · rw [if_neg ha]
        by_cases hf : (seed.isConditionFirst != cand.isConditionFirst) = true
        · rw [if_pos hf]
        · rw [if_neg hf, if_neg (h cand (List.mem_cons_self _ _))]
    rw [hstep]
    exact ih st (fun c hc => h c (List.mem_cons_of_mem _ hc))

theorem singletons_aux (l : List Node) :
    ∀ (clusters : List Cluster) (asg : List (String × String)),
    (∀ n ∈ l, n.id ∉ asg.map Prod.fst) →
    (l.map Node.id).Nodup →
    l.Pairwise (fun a b => 0 < hammingDistance a.hash b.hash) →
    ((buildClustersAux 0 l clusters asg).1.map Cluster.nodeIds)
      = clusters.map Cluster.nodeIds ++ l.map (fun n => [n.id]) := by
  induction l with
  | nil =>
    intro clusters asg _ _ _
    rw [buildClustersAux]
    simp
  | cons node rest ih =>
    intro clusters asg h1 h2 h3
    have ha : ¬ (asg.any fun p => p.1 == node.id) = true := by
      rw [any_key_eq_false (h1 node (List.mem_cons_self _ _))]
      exact Bool.false_ne_true
    have hsim : ∀ cand ∈ rest, ¬ hashesAreSimilar node.hash cand.hash 0 := by
      intro cand hc hsimilar
      have hpos := (List.pairwise_cons.mp h3).1 cand hc
      have : hammingDistance node.hash cand.hash = 0 := Nat.le_zero.mp hsimilar
      omega
    rw [buildClustersAux, if_neg ha]
    show (buildClustersAux 0 rest
        (clusters ++ [({ id := "cluster-" ++ toString clusters.length,
                         nodeIds := (rest.foldl (clusterJoinStep node
                           ("cluster-" ++ toString clusters.length) 0)
                           ([node], asg ++ [(node.id,
                             "cluster-" ++ toString clusters.length)])).1.map Node.id,
                         representativeNodeId := node.id } : Cluster)])
        (rest.foldl (clusterJoinStep node ("cluster-" ++ toString clusters.length) 0)
          ([node], asg ++ [(node.id, "cluster-" ++ toString clusters.length)])).2).1.map
            Cluster.nodeIds
      = clusters.map Cluster.nodeIds ++ (node :: rest).map (fun n => [n.id])
    rw [joinFold_no_similar node _ 0 rest _ hsim]
    have hrest : ∀ n ∈ rest, n.id ∉
        (asg ++ [(node.id, "cluster-" ++ toString clusters.length)]).map Prod.fst := by
      intro n hn hmem
      rw [List.map_append] at hmem
      rcases List.mem_append.mp hmem with hmem' | hmem'
      · exact h1 n (List.mem_cons_of_mem _ hn) hmem'
      · rcases List.mem_singleton.mp hmem' with heq
        have heq' : n.id = node.id := heq
        have : node.id ∉ rest.map Node.id := (List.nodup_cons.mp h2).1
        exact this (heq' ▸ List.mem_map_of_mem Node.id hn)
    rw [ih _ _ hrest (List.nodup_cons.mp h2).2 (List.pairwise_cons.mp h3).2]
    simp

/-- Demo nodes with distinct fingerprints (positive Hamming distance)
for the C4 counterexample. -/
def demoNodeA : Node :=
  { id := "na", hash := "0", isConditionFirst := false, occurrences := [],
    weight := 1, clusterId := none }

def demoNodeB : Node :=
  { id := "nb", hash := "f", isConditionFirst := false, occurrences := [],
    weight := 1, clusterId := none }

/-- Claim C4 counterexample: two nodes with distinct fingerprints at
threshold 0 produce two singleton clusters — a cluster with fewer than 2
members is materialized and the returned list is not empty. -/
theorem cluster_min_size_counterexample :
    hammingDistance demoNodeA.hash demoNodeB.hash ≠ 0 ∧
    (buildClusters [demoNodeA, demoNodeB] 0).1 ≠ [] ∧
    ∃ c ∈ (buildClusters [demoNodeA, demoNodeB] 0).1, c.nodeIds.length < 2 := by
  refine ⟨by decide, by decide, by decide⟩

/-- Claim C4 amended: every returned cluster has at least one member
(its seed) — single nodes do form their own clusters — and with
threshold 0 applied to nodes with pairwise positive fingerprint
distance, the clustering returns exactly one singleton cluster per node
rather than an empty list. -/
theorem cluster_singletons_amended :
    (∀ (nodes : List Node) (thr : Nat), ∀ c ∈ (buildClusters nodes thr).1,
      c.nodeIds ≠ []) ∧
    (∀ nodes : List Node,
      (nodes.map Node.id).Nodup →
      nodes.Pairwise (fun a b => 0 < hammingDistance a.hash b.hash) →
      ((buildClusters nodes 0).1.map Cluster.nodeIds) = nodes.map (fun n => [n.id])) := by
  constructor
  · intro nodes thr c hc
    rcases clustersAux_spec thr nodes nodes [] [] (fun x hx => hx) rfl List.nodup_nil
      (fun c hc => absurd hc (List.not_mem_nil c)) with ⟨-, -, -, -, c5⟩
    exact (c5 c hc).1
  · intro nodes hids hdist
    have h := singletons_aux nodes [] []
      (fun n _ hx => absurd hx (List.not_mem_nil _)) hids hdist
    simpa using h

/-- Demo nodes for the C4 amended witness. -/
def demoNodeC : Node :=
  { id := "nc", hash := "00", isConditionFirst := false, occurrences := [],
    weight := 1, clusterId := none }

def demoNodeD : Node :=
  { id := "nd", hash := "ff", isConditionFirst := false, occurrences := [],
    weight := 1, clusterId := none }

/-- Witness for the amended C4 at two concrete distinct-fingerprint
nodes under threshold 0. -/
theorem cluster_singletons_amended_witness :
    (([demoNodeC, demoNodeD].map Node.id).Nodup) ∧
    ((buildClusters [demoNodeC, demoNodeD] 0).1.map Cluster.nodeIds
      = [demoNodeC, demoNodeD].map (fun n => [n.id])) :=
  ⟨by decide, cluster_singletons_amended.2 [demoNodeC, demoNodeD] (by decide) (by decide)⟩

/-! ### String-key reasoning for the link map (claims C1, C6)

Node ids produced by the pipeline (`node-condition-first` and
`node-<hex digest>`) never contain an underscore, so the
`<source>__<target>__<sequenceIndex>` keys of the `linksMap` are
injective on them. -/

/-- The id alphabet constraint the pipeline guarantees: no underscore. -/
def noUnderscore (s : String) : Prop := '_' ∉ s.data

instance (s : String) : Decidable (noUnderscore s) :=
  inferInstanceAs (Decidable ('_' ∉ s.data))

theorem sep_split {xs : List Char} : ∀ {as ys bs : List Char},
    '_' ∉ xs → '_' ∉ as →
    (xs ++ '_' :: '_' :: ys = as ++ '_' :: '_' :: bs ↔ xs = as ∧ ys = bs) := by
  induction xs with
  | nil =>
    intro as ys bs _ ha
    cases as with
    | nil => simp
    | cons c as' =>
      simp only [List.nil_append, List.cons_append]
      constructor
      · intro h
        exfalso
        injection h with h1 _
        exact ha (by rw [← h1]; exact List.mem_cons_self '_' as')
      · intro h
        exact absurd h.1 (by simp)
  | cons x xs ih =>
    intro as ys bs hx ha
    cases as with
    | nil =>
      simp only [List.nil_append, List.cons_append]
      constructor
      · intro h
        exfalso
        injection h with h1 _
        exact hx (by rw [h1]; exact List.mem_cons_self '_' xs)
      · intro h
        exact absurd h.1 (by simp)
    | cons c as' =>
      have hx' : '_' ∉ xs := fun hm => hx (List.mem_cons_of_mem _ hm)
      have ha' : '_' ∉ as' := fun hm => ha (List.mem_cons_of_mem _ hm)
      simp only [List.cons_append]
      constructor
      · intro h
        injection h with h1 h2
        rcases (ih hx' ha').mp h2 with ⟨e1, e2⟩
        exact ⟨by rw [h1, e1], e2⟩
      · intro h
        rcases h with ⟨h1, h2⟩
        injection h1 with e1 e2
        rw [e1, e2, h2]

theorem linkKey_data (a b : String) (i : Nat) :
    (linkKey a b i).data
      = a.data ++ ('_' :: '_' :: (b.data ++ ('_' :: '_' :: (toString i).data))) := by
  show ((((a ++ "__") ++ b) ++ "__") ++ toString i).data = _
  rw [String.data_append, String.data_append, String.data_append, String.data_append]
  rw [show ("__" : String).data = ['_', '_'] from rfl]
  simp [List.append_assoc]

theorem linkKey_inj {a b c d : String} {i j : Nat}
    (hna : noUnderscore a) (hnb : noUnderscore b)
    (hnc : noUnderscore c) (hnd : noUnderscore d) :
    linkKey a b i = linkKey c d j ↔ a = c ∧ b = d ∧ toString i = toString j := by
  constructor
  · intro h
    have hd := congrArg String.data h
    rw [linkKey_data, linkKey_data] at hd
    rcases (sep_split hna hnc).mp hd with ⟨e1, e2⟩
    rcases (sep_split hnb hnd).mp e2 with ⟨e3, e4⟩
    exact ⟨String.ext e1, String.ext e3, String.ext e4⟩
  · intro h
    rcases h with ⟨h1, h2, h3⟩
    show (((a ++ "__") ++ b) ++ "__") ++ toString i = (((c ++ "__") ++ d) ++ "__") ++ toString j
    rw [h1, h2, h3]

theorem nodePrefix_inj {x y : String} : ("node-" ++ x = "node-" ++ y) ↔ x = y := by
  constructor
  · intro h
    have hd := congrArg String.data h
    rw [String.data_append, String.data_append] at hd
    exact String.ext (List.append_cancel_left hd)
  · intro h
    rw [h]

theorem conditionFirst_as_append : conditionFirstNodeId = "node-" ++ "condition-first" := rfl

theorem nodePrefix_ne_cf {x : String} (h : x ≠ "condition-first") :
    ("node-" ++ x) ≠ conditionFirstNodeId := by
  rw [conditionFirst_as_append]
  intro he
  exact h (nodePrefix_inj.mp he)

theorem nodePrefix_ne_empty (x : String) : ("node-" ++ x) ≠ "" := by
  intro h
  have hd := congrArg String.data h
  rw [String.data_append, show ("node-" : String).data = ['n', 'o', 'd', 'e', '-'] from rfl]
    at hd
  simp at hd

theorem nodePrefix_isEmpty_false (x : String) : ("node-" ++ x).isEmpty = false :=
  Bool.eq_false_iff.mpr (fun h => nodePrefix_ne_empty x ((String.isEmpty_iff _).mp h))

theorem cf_isEmpty_false : conditionFirstNodeId.isEmpty = false := by decide

theorem noUnderscore_nodePrefix {x : String} (h : noUnderscore x) :
    noUnderscore ("node-" ++ x) := by
  intro hm
  rw [String.data_append] at hm
  rcases List.mem_append.mp hm with hm' | hm'
  · exact absurd hm' (by decide)
  · exact h hm'

theorem noUnderscore_cf : noUnderscore conditionFirstNodeId := by decide

/-! Small-step evaluation lemmas for the node and link folds. -/

theorem map_ite_id {α β : Type} [BEq β] [LawfulBEq β] (f : α → β) (u : α → α) (k : β) :
    ∀ l : List α, (∀ x ∈ l, f x ≠ k) →
    (l.map fun x => if f x == k then u x else x) = l := by
  intro l
  induction l with
  | nil => intro _; rfl
  | cons a l ih =>
    intro h
    rw [List.map_cons]
    rw [if_neg (by
      rw [beq_eq_false_iff_ne.mpr (h a (List.mem_cons_self _ _))]
      exact Bool.false_ne_true)]
    rw [ih (fun x hx => h x (List.mem_cons_of_mem _ hx))]

theorem insertOcc_fresh {nodes : List Node} {nid hash : String} {fl : Bool}
    {occ : Nat × Nat} (h : ∀ n ∈ nodes, n.id ≠ nid) :
    insertOcc nodes nid hash fl occ
      = nodes ++ [{ id := nid, hash := hash, isConditionFirst := fl,
                    occurrences := [occ], weight := 1, clusterId := none }] := by
  have hany : (nodes.any fun n => n.id == nid) = false := by
    rw [List.any_eq_false]
    intro n hn hbeq
    exact h n hn (eq_of_beq hbeq)
  rw [insertOcc]
  rw [if_neg (by rw [hany]; exact Bool.false_ne_true)]
  rw [List.map_append]
  rw [map_ite_id Node.id _ nid nodes h]
  congr 1
  rw [List.map_cons, List.map_nil]
  rw [if_pos (beq_self_eq_true nid)]
  rfl

theorem insertOcc_hit {nodes : List Node} {nid hash : String} {fl : Bool}
    {occ : Nat × Nat} (h : (nodes.any fun n => n.id == nid) = true) :
    insertOcc nodes nid hash fl occ
      = nodes.map (fun n =>
          if n.id == nid then
            { n with occurrences := n.occurrences ++ [occ], weight := n.weight + 1 }
          else n) := by
  rw [insertOcc, if_pos h]

theorem upsertLink_fresh {links : List Link} {s t : String} {i p : Nat}
    (h : ∀ l ∈ links, l.id ≠ linkKey s t i) :
    upsertLink links s t i p
      = links ++ [{ id := linkKey s t i, source := s, target := t, count := 1,
                    occurrences := [(i, p)], sequenceIndex := some i,
                    synthetic := false }] := by
  have hany : (links.any fun l => l.id == linkKey s t i) = false := by
    rw [List.any_eq_false]
    intro l hl hbeq
    exact h l hl (eq_of_beq hbeq)
  rw [upsertLink]
  rw [if_neg (by rw [hany]; exact Bool.false_ne_true)]
  rw [List.map_append]
  rw [map_ite_id Link.id _ (linkKey s t i) links h]
  congr 1
  rw [List.map_cons, List.map_nil]
  rw [if_pos (beq_self_eq_true (linkKey s t i))]
  rfl

theorem linkStep_upsert {seqIdx : Nat} {ids : List String} {pos : Nat} {cur next : String}
    (hc : ids.get? pos = some cur) (hn : ids.get? (pos + 1) = some next)
    (he1 : cur.isEmpty = false) (he2 : next.isEmpty = false) (hne : cur ≠ next)
    (links : List Link) :
    linkStep seqIdx ids links pos = upsertLink links cur next seqIdx pos := by
  rw [linkStep]
  simp only [hc, hn]
  rw [if_neg (by rw [he1, he2]; exact Bool.false_ne_true)]
  rw [if_neg (by rw [beq_eq_false_iff_ne.mpr hne]; exact Bool.false_ne_true)]

theorem linkStep_skip {seqIdx : Nat} {ids : List String} {pos : Nat} {cur : String}
    (hc : ids.get? pos = some cur) (hn : ids.get? (pos + 1) = some cur)
    (links : List Link) :
    linkStep seqIdx ids links pos = links := by
  rw [linkStep]
  simp only [hc, hn]
  by_cases he : (cur.isEmpty || cur.isEmpty) = true
  · rw [if_pos he]
  · rw [if_neg he, if_pos (beq_self_eq_true cur)]

/-! ### Claim C6 -/

set_option maxHeartbeats 1600000 in
/-- Claim C6: a single sequence whose screenshots map to node ids
`[X, Y, Y, Y, Z]` (X the reserved first node, Y and Z fingerprint nodes,
all pairwise distinct) produces exactly the two non-loop links `X→Y` and
`Y→Z` with count 1 each, and the synthetic pass adds exactly one
self-loop on `Y` tagged synthetic with repeat count 3. -/
theorem synthetic_self_loop_scenario (hashFn : String → String)
    (s0 s1 s2 s3 s4 : String)
    (h12 : hashFn s1 = hashFn s2) (h13 : hashFn s1 = hashFn s3)
    (h14 : hashFn s1 ≠ hashFn s4)
    (hu1 : noUnderscore (hashFn s1)) (hu4 : noUnderscore (hashFn s4))
    (hc1 : hashFn s1 ≠ "condition-first") (hc4 : hashFn s4 ≠ "condition-first") :
    ((buildGraph hashFn [[s0, s1, s2, s3, s4]]).2.map
        (fun l => (l.source, l.target, l.count, l.synthetic))
      = [(conditionFirstNodeId, "node-" ++ hashFn s1, 1, false),
         ("node-" ++ hashFn s1, "node-" ++ hashFn s4, 1, false)]) ∧
    ((syntheticSelfLinks (buildGraph hashFn [[s0, s1, s2, s3, s4]]).1
        (buildGraph hashFn [[s0, s1, s2, s3, s4]]).2).map
        (fun l => (l.source, l.target, l.count, l.synthetic))
      = [("node-" ++ hashFn s1, "node-" ++ hashFn s1, 3, true)]) := by
  have hXY : conditionFirstNodeId ≠ "node-" ++ hashFn s1 :=
    fun h => nodePrefix_ne_cf hc1 h.symm
  have hXZ : conditionFirstNodeId ≠ "node-" ++ hashFn s4 :=
    fun h => nodePrefix_ne_cf hc4 h.symm
  have hYZ : ("node-" ++ hashFn s1) ≠ ("node-" ++ hashFn s4) :=
    fun h => h14 (nodePrefix_inj.mp h)
  have i1 : insertOcc ([] : List Node) conditionFirstNodeId FIRST_CONDITION_HASH
      true (0, 0)
      = [{ id := conditionFirstNodeId, hash := FIRST_CONDITION_HASH,
           isConditionFirst := true, occurrences := [(0, 0)], weight := 1,
           clusterId := none }] := by
    rw [insertOcc_fresh (by intro n hn; cases hn)]
    rfl
  have i2 : insertOcc
      [{ id := conditionFirstNodeId, hash := FIRST_CONDITION_HASH,
         isConditionFirst := true, occurrences := [(0, 0)], weight := 1,
         clusterId := none }]
      ("node-" ++ hashFn s1) (hashFn s1) false (0, 1)
      = [{ id := conditionFirstNodeId, hash := FIRST_CONDITION_HASH,
           isConditionFirst := true, occurrences := [(0, 0)], weight := 1,
           clusterId := none },
         { id := "node-" ++ hashFn s1, hash := hashFn s1, isConditionFirst := false,
           occurrences := [(0, 1)], weight := 1, clusterId := none }] := by
    rw [insertOcc_fresh (by
      intro n hn
      rcases List.mem_singleton.mp hn with rfl
      exact hXY)]
    rfl
  have i3 : insertOcc
      [{ id := conditionFirstNodeId, hash := FIRST_CONDITION_HASH,
         isConditionFirst := true, occurrences := [(0, 0)], weight := 1,
         clusterId := none },
       { id := "node-" ++ hashFn s1, hash := hashFn s1, isConditionFirst := false,
         occurrences := [(0, 1)], weight := 1, clusterId := none }]
      ("node-" ++ hashFn s2) (hashFn s2) false (0, 2)
      = [{ id := conditionFirstNodeId, hash := FIRST_CONDITION_HASH,
           isConditionFirst := true, occurrences := [(0, 0)], weight := 1,
           clusterId := none },
         { id := "node-" ++ hashFn s1, hash := hashFn s1, isConditionFirst := false,
           occurrences := [(0, 1), (0, 2)], weight := 2, clusterId := none }] := by
    rw [← h12]
    rw [insertOcc_hit (by simp)]
    rw [List.map_cons, List.map_cons, List.map_nil]
    rw [if_neg (by rw [beq_eq_false_iff_ne.mpr hXY]; exact Bool.false_ne_true)]
    rw [if_pos (beq_self_eq_true _)]
    rfl
  have i4 : insertOcc
      [{ id := conditionFirstNodeId, hash := FIRST_CONDITION_HASH,
         isConditionFirst := true, occurrences := [(0, 0)], weight := 1,
         clusterId := none },
       { id := "node-" ++ hashFn s1, hash := hashFn s1, isConditionFirst := false,
         occurrences := [(0, 1), (0, 2)], weight := 2, clusterId := none }]
      ("node-" ++ hashFn s3) (hashFn s3) false (0, 3)
      = [{ id := conditionFirstNodeId, hash := FIRST_CONDITION_HASH,
           isConditionFirst := true, occurrences := [(0, 0)], weight := 1,
           clusterId := none },
         { id := "node-" ++ hashFn s1, hash := hashFn s1, isConditionFirst := false,
           occurrences := [(0, 1), (0, 2), (0, 3)], weight := 3, clusterId := none }] := by
    rw [← h13]
    rw [insertOcc_hit (by simp)]
    rw [List.map_cons, List.map_cons, List.map_nil]
    rw [if_neg (by rw [beq_eq_false_iff_ne.mpr hXY]; exact Bool.false_ne_true)]
    rw [if_pos (beq_self_eq_true _)]
    rfl
  have i5 : insertOcc
      [{ id := conditionFirstNodeId, hash := FIRST_CONDITION_HASH,
         isConditionFirst := true, occurrences := [(0, 0)], weight := 1,
         clusterId := none },
       { id := "node-" ++ hashFn s1, hash := hashFn s1, isConditionFirst := false,
         occurrences := [(0, 1), (0, 2), (0, 3)], weight := 3, clusterId := none }]
      ("node-" ++ hashFn s4) (hashFn s4) false (0, 4)
      = [{ id := conditionFirstNodeId, hash := FIRST_CONDITION_HASH,
           isConditionFirst := true, occurrences := [(0, 0)], weight := 1,
           clusterId := none },
         { id := "node-" ++ hashFn s1, hash := hashFn s1, isConditionFirst := false,
           occurrences := [(0, 1), (0, 2), (0, 3)], weight := 3, clusterId := none },
         { id := "node-" ++ hashFn s4, hash := hashFn s4, isConditionFirst := false,
           occurrences := [(0, 4)], weight := 1, clusterId := none }] := by
    rw [insertOcc_fresh (by
      intro n hn
      rcases List.mem_cons.mp hn with rfl | hn'
      · exact hXZ
      rcases List.mem_singleton.mp hn' with rfl
      exact hYZ)]
    rfl
  have hnodes : buildNodes hashFn [[s0, s1, s2, s3, s4]]
      = [{ id := conditionFirstNodeId, hash := FIRST_CONDITION_HASH,
           isConditionFirst := true, occurrences := [(0, 0)], weight := 1,
           clusterId := none },
         { id := "node-" ++ hashFn s1, hash := hashFn s1, isConditionFirst := false,
           occurrences := [(0, 1), (0, 2), (0, 3)], weight := 3, clusterId := none },
         { id := "node-" ++ hashFn s4, hash := hashFn s4, isConditionFirst := false,
           occurrences := [(0, 4)], weight := 1, clusterId := none }] := by
    rw [show buildNodes hashFn [[s0, s1, s2, s3, s4]]
      = buildNodesFrom hashFn
        [(0, 0, s0), (0, 1, s1), (0, 2, s2), (0, 3, s3), (0, 4, s4)] from rfl]
    rw [buildNodesFrom]
    simp only [List.foldl_cons, List.foldl_nil,
      show nodeIdFor hashFn 0 s0 = conditionFirstNodeId from rfl,
      show nodeIdFor hashFn 1 s1 = "node-" ++ hashFn s1 from rfl,
      show nodeIdFor hashFn 2 s2 = "node-" ++ hashFn s2 from rfl,
      show nodeIdFor hashFn 3 s3 = "node-" ++ hashFn s3 from rfl,
      show nodeIdFor hashFn 4 s4 = "node-" ++ hashFn s4 from rfl,
      show nodeHashFor hashFn 0 s0 = FIRST_CONDITION_HASH from rfl,
      show nodeHashFor hashFn 1 s1 = hashFn s1 from rfl,
      show nodeHashFor hashFn 2 s2 = hashFn s2 from rfl,
      show nodeHashFor hashFn 3 s3 = hashFn s3 from rfl,
      show nodeHashFor hashFn 4 s4 = hashFn s4 from rfl,
      show ((0 : Nat) == 0) = true from rfl,
      show ((1 : Nat) == 0) = false from rfl,
      show ((2 : Nat) == 0) = false from rfl,
      show ((3 : Nat) == 0) = false from rfl,
      show ((4 : Nat) == 0) = false from rfl]
    rw [i1, i2, i3, i4, i5]
  have hids : assignNodeIds hashFn [[s0, s1, s2, s3, s4]]
      = [[conditionFirstNodeId, "node-" ++ hashFn s1, "node-" ++ hashFn s1,
          "node-" ++ hashFn s1, "node-" ++ hashFn s4]] := by
    show [[conditionFirstNodeId, "node-" ++ hashFn s1, "node-" ++ hashFn s2,
           "node-" ++ hashFn s3, "node-" ++ hashFn s4]] = _
    rw [← h12, ← h13]
  have hlinks : buildLinks [[conditionFirstNodeId, "node-" ++ hashFn s1,
      "node-" ++ hashFn s1, "node-" ++ hashFn s1, "node-" ++ hashFn s4]]
      = [{ id := linkKey conditionFirstNodeId ("node-" ++ hashFn s1) 0,
           source := conditionFirstNodeId, target := "node-" ++ hashFn s1,
           count := 1, occurrences := [(0, 0)], sequenceIndex := some 0,
           synthetic := false },
         { id := linkKey ("node-" ++ hashFn s1) ("node-" ++ hashFn s4) 0,
           source := "node-" ++ hashFn s1, target := "node-" ++ hashFn s4,
           count := 1, occurrences := [(0, 3)], sequenceIndex := some 0,
           synthetic := false }] := by
    rw [show buildLinks [[conditionFirstNodeId, "node-" ++ hashFn s1,
        "node-" ++ hashFn s1, "node-" ++ hashFn s1, "node-" ++ hashFn s4]]
      = buildLinksForSeq [] 0 [conditionFirstNodeId, "node-" ++ hashFn s1,
          "node-" ++ hashFn s1, "node-" ++ hashFn s1, "node-" ++ hashFn s4] from rfl]
    rw [buildLinksForSeq]
    rw [show List.range ([conditionFirstNodeId, "node-" ++ hashFn s1,
        "node-" ++ hashFn s1, "node-" ++ hashFn s1,
        "node-" ++ hashFn s4].length - 1) = [0, 1, 2, 3] from rfl]
    rw [List.foldl_cons,
      @linkStep_upsert 0 [conditionFirstNodeId, "node-" ++ hashFn s1,
        "node-" ++ hashFn s1, "node-" ++ hashFn s1, "node-" ++ hashFn s4] 0
        conditionFirstNodeId ("node-" ++ hashFn s1) rfl rfl cf_isEmpty_false
        (nodePrefix_isEmpty_false _) hXY,
      upsertLink_fresh (by intro l hl; cases hl)]
    rw [List.foldl_cons,
      @linkStep_skip 0 [conditionFirstNodeId, "node-" ++ hashFn s1,
        "node-" ++ hashFn s1, "node-" ++ hashFn s1, "node-" ++ hashFn s4] 1
        ("node-" ++ hashFn s1) rfl rfl]
    rw [List.foldl_cons,
      @linkStep_skip 0 [conditionFirstNodeId, "node-" ++ hashFn s1,
        "node-" ++ hashFn s1, "node-" ++ hashFn s1, "node-" ++ hashFn s4] 2
        ("node-" ++ hashFn s1) rfl rfl]
    rw [List.foldl_cons,
      @linkStep_upsert 0 [conditionFirstNodeId, "node-" ++ hashFn s1,
        "node-" ++ hashFn s1, "node-" ++ hashFn s1, "node-" ++ hashFn s4] 3
        ("node-" ++ hashFn s1) ("node-" ++ hashFn s4) rfl rfl
        (nodePrefix_isEmpty_false _) (nodePrefix_isEmpty_false _) hYZ,
      upsertLink_fresh (by
        intro l hl
        rcases List.mem_singleton.mp (by simpa using hl) with rfl
        intro he
        rcases (linkKey_inj noUnderscore_cf (noUnderscore_nodePrefix hu1)
          (noUnderscore_nodePrefix hu1) (noUnderscore_nodePrefix hu4)).mp he with
          ⟨e1, -, -⟩
        exact hXY e1)]
    rw [List.foldl_nil]
    rfl
  have hfilter : (([{ id := linkKey conditionFirstNodeId ("node-" ++ hashFn s1) 0,
                      source := conditionFirstNodeId, target := "node-" ++ hashFn s1,
                      count := 1, occurrences := [(0, 0)], sequenceIndex := some 0,
                      synthetic := false },
                    { id := linkKey ("node-" ++ hashFn s1) ("node-" ++ hashFn s4) 0,
                      source := "node-" ++ hashFn s1, target := "node-" ++ hashFn s4,
                      count := 1, occurrences := [(0, 3)], sequenceIndex := some 0,
                      synthetic := false }] : List Link).filter
                        fun l => l.source == l.target) = [] := by
    simp [beq_eq_false_iff_ne.mpr hXY, beq_eq_false_iff_ne.mpr hYZ]
  constructor
  · show (buildLinks (assignNodeIds hashFn [[s0, s1, s2, s3, s4]])).map
        (fun l => (l.source, l.target, l.count, l.synthetic)) = _
    rw [hids, hlinks]
    rw [List.map_cons, List.map_cons, List.map_nil]
  · rw [show (buildGraph hashFn [[s0, s1, s2, s3, s4]]).1
        = buildNodes hashFn [[s0, s1, s2, s3, s4]] from rfl]
    rw [show (buildGraph hashFn [[s0, s1, s2, s3, s4]]).2
        = buildLinks (assignNodeIds hashFn [[s0, s1, s2, s3, s4]]) from rfl]
    rw [hnodes, hids, hlinks]
    rw [syntheticSelfLinks]
    rw [hfilter]
    rfl

/-- Witness for C6 at a concrete sequence with repeated middle
screenshots. -/
theorem synthetic_self_loop_scenario_witness :
    ((fun s => s) "y" = (fun s => s) "y") ∧
    (((buildGraph (fun s => s) [["s0", "y", "y", "y", "z"]]).2.map
        (fun l => (l.source, l.target, l.count, l.synthetic))
      = [(conditionFirstNodeId, "node-" ++ (fun s => s) "y", 1, false),
         ("node-" ++ (fun s => s) "y", "node-" ++ (fun s => s) "z", 1, false)]) ∧
    ((syntheticSelfLinks (buildGraph (fun s => s) [["s0", "y", "y", "y", "z"]]).1
        (buildGraph (fun s => s) [["s0", "y", "y", "y", "z"]]).2).map
        (fun l => (l.source, l.target, l.count, l.synthetic))
      = [("node-" ++ (fun s => s) "y", "node-" ++ (fun s => s) "y", 3, true)])) :=
  ⟨rfl,
   synthetic_self_loop_scenario (fun s => s) "s0" "y" "y" "y" "z"
     rfl rfl (by decide) (by decide) (by decide) (by decide) (by decide)⟩

/-! ### Claim C1 -/

/-- Claim C1 counterexample: in the two-sequence scenario (second
screenshots hash identically, all others pairwise distinct) the built
graph has 4 nodes, not 5 — both position-0 screenshots collapse into the
single reserved first-of-run node. -/
theorem start_nodes_shared_counterexample :
    ((fun s => s) "m" = (fun s => s) "m") ∧
    ((fun s => s) "a2" ≠ (fun s => s) "b2") ∧
    ((fun s => s) "a2" ≠ (fun s => s) "m") ∧
    ((fun s => s) "b2" ≠ (fun s => s) "m") ∧
    ((fun s => s) "a0" ≠ (fun s => s) "b0") ∧
    (buildGraph (fun s => s) [["a0", "m", "a2"], ["b0", "m", "b2"]]).1.length = 4 ∧
    (buildGraph (fun s => s) [["a0", "m", "a2"], ["b0", "m", "b2"]]).1.length ≠ 5 := by
  refine ⟨rfl, by decide, by decide, by decide, by decide, by decide, by decide⟩

set_option maxHeartbeats 1600000 in
/-- Node collection in the shared-middle two-sequence scenario of C1:
the two position-0 screenshots collapse into one reserved node, the two
position-1 screenshots into one middle node. -/
theorem sharedMiddle_buildNodes (hashFn : String → String)
    (a0 a1 a2 b0 b1 b2 : String)
    (h11 : hashFn a1 = hashFn b1)
    (hMA : hashFn a2 ≠ hashFn a1) (hBA : hashFn b2 ≠ hashFn a1)
    (hAB : hashFn a2 ≠ hashFn b2)
    (hcM : hashFn a1 ≠ "condition-first") (hcA : hashFn a2 ≠ "condition-first")
    (hcB : hashFn b2 ≠ "condition-first") :
    buildNodes hashFn [[a0, a1, a2], [b0, b1, b2]]
      = [{ id := conditionFirstNodeId, hash := FIRST_CONDITION_HASH,
           isConditionFirst := true, occurrences := [(0, 0), (1, 0)], weight := 2,
           clusterId := none },
         { id := "node-" ++ hashFn a1, hash := hashFn a1, isConditionFirst := false,
           occurrences := [(0, 1), (1, 1)], weight := 2, clusterId := none },
         { id := "node-" ++ hashFn a2, hash := hashFn a2, isConditionFirst := false,
           occurrences := [(0, 2)], weight := 1, clusterId := none },
         { id := "node-" ++ hashFn b2, hash := hashFn b2, isConditionFirst := false,
           occurrences := [(1, 2)], weight := 1, clusterId := none }] := by
  have hXM : conditionFirstNodeId ≠ "node-" ++ hashFn a1 :=
    fun h => nodePrefix_ne_cf hcM h.symm
  have hXA : conditionFirstNodeId ≠ "node-" ++ hashFn a2 :=
    fun h => nodePrefix_ne_cf hcA h.symm
  have hXB : conditionFirstNodeId ≠ "node-" ++ hashFn b2 :=
    fun h => nodePrefix_ne_cf hcB h.symm
  have hMA' : ("node-" ++ hashFn a1) ≠ ("node-" ++ hashFn a2) :=
    fun h => hMA (nodePrefix_inj.mp h).symm
  have hMB' : ("node-" ++ hashFn a1) ≠ ("node-" ++ hashFn b2) :=
    fun h => hBA (nodePrefix_inj.mp h).symm
  have hAB' : ("node-" ++ hashFn a2) ≠ ("node-" ++ hashFn b2) :=
    fun h => hAB (nodePrefix_inj.mp h)
  have i1 : insertOcc ([] : List Node) conditionFirstNodeId FIRST_CONDITION_HASH
      true (0, 0)
      = [{ id := conditionFirstNodeId, hash := FIRST_CONDITION_HASH,
           isConditionFirst := true, occurrences := [(0, 0)], weight := 1,
           clusterId := none }] := by
    rw [insertOcc_fresh (by intro n hn; cases hn)]
    rfl
  have i2 : insertOcc
      [{ id := conditionFirstNodeId, hash := FIRST_CONDITION_HASH,
         isConditionFirst := true, occurrences := [(0, 0)], weight := 1,
         clusterId := none }]
      ("node-" ++ hashFn a1) (hashFn a1) false (0, 1)
      = [{ id := conditionFirstNodeId, hash := FIRST_CONDITION_HASH,
           isConditionFirst := true, occurrences := [(0, 0)], weight := 1,
           clusterId := none },
         { id := "node-" ++ hashFn a1, hash := hashFn a1, isConditionFirst := false,
           occurrences := [(0, 1)], weight := 1, clusterId := none }] := by
    rw [insertOcc_fresh (by
      intro n hn
      rcases List.mem_singleton.mp hn with rfl
      exact hXM)]
    rfl
  have i3 : insertOcc
      [{ id := conditionFirstNodeId, hash := FIRST_CONDITION_HASH,
         isConditionFirst := true, occurrences := [(0, 0)], weight := 1,
         clusterId := none },
       { id := "node-" ++ hashFn a1, hash := hashFn a1, isConditionFirst := false,
         occurrences := [(0, 1)], weight := 1, clusterId := none }]
      ("node-" ++ hashFn a2) (hashFn a2) false (0, 2)
      = [{ id := conditionFirstNodeId, hash := FIRST_CONDITION_HASH,
           isConditionFirst := true, occurrences := [(0, 0)], weight := 1,
           clusterId := none },
         { id := "node-" ++ hashFn a1, hash := hashFn a1, isConditionFirst := false,
           occurrences := [(0, 1)], weight := 1, clusterId := none },
         { id := "node-" ++ hashFn a2, hash := hashFn a2, isConditionFirst := false,
           occurrences := [(0, 2)], weight := 1, clusterId := none }] := by
    rw [insertOcc_fresh (by
      intro n hn
      rcases List.mem_cons.mp hn with rfl | hn'
      · exact hXA
      rcases List.mem_singleton.mp hn' with rfl
      exact hMA')]
    rfl
  have i4 : insertOcc
      [{ id := conditionFirstNodeId, hash := FIRST_CONDITION_HASH,
         isConditionFirst := true, occurrences := [(0, 0)], weight := 1,
         clusterId := none },
       { id := "node-" ++ hashFn a1, hash := hashFn a1, isConditionFirst := false,
         occurrences := [(0, 1)], weight := 1, clusterId := none },
       { id := "node-" ++ hashFn a2, hash := hashFn a2, isConditionFirst := false,
         occurrences := [(0, 2)], weight := 1, clusterId := none }]
      conditionFirstNodeId FIRST_CONDITION_HASH true (1, 0)
      = [{ id := conditionFirstNodeId, hash := FIRST_CONDITION_HASH,
           isConditionFirst := true, occurrences := [(0, 0), (1, 0)], weight := 2,
           clusterId := none },
         { id := "node-" ++ hashFn a1, hash := hashFn a1, isConditionFirst := false,
           occurrences := [(0, 1)], weight := 1, clusterId := none },
         { id := "node-" ++ hashFn a2, hash := hashFn a2, isConditionFirst := false,
           occurrences := [(0, 2)], weight := 1, clusterId := none }] := by
    rw [insertOcc_hit (by simp)]
    rw [List.map_cons, List.map_cons, List.map_cons, List.map_nil]
    rw [if_pos (beq_self_eq_true _)]
    rw [if_neg (by
      rw [beq_eq_false_iff_ne.mpr (fun h => hXM h.symm)]
      exact Bool.false_ne_true)]
    rw [if_neg (by
      rw [beq_eq_false_iff_ne.mpr (fun h => hXA h.symm)]
      exact Bool.false_ne_true)]
    rfl
  have i5 : insertOcc
      [{ id := conditionFirstNodeId, hash := FIRST_CONDITION_HASH,
         isConditionFirst := true, occurrences := [(0, 0), (1, 0)], weight := 2,
         clusterId := none },
       { id := "node-" ++ hashFn a1, hash := hashFn a1, isConditionFirst := false,
         occurrences := [(0, 1)], weight := 1, clusterId := none },
       { id := "node-" ++ hashFn a2, hash := hashFn a2, isConditionFirst := false,
         occurrences := [(0, 2)], weight := 1, clusterId := none }]
      ("node-" ++ hashFn b1) (hashFn b1) false (1, 1)
      = [{ id := conditionFirstNodeId, hash := FIRST_CONDITION_HASH,
           isConditionFirst := true, occurrences := [(0, 0), (1, 0)], weight := 2,
           clusterId := none },
         { id := "node-" ++ hashFn a1, hash := hashFn a1, isConditionFirst := false,
           occurrences := [(0, 1), (1, 1)], weight := 2, clusterId := none },
         { id := "node-" ++ hashFn a2, hash := hashFn a2, isConditionFirst := false,
           occurrences := [(0, 2)], weight := 1, clusterId := none }] := by
    rw [← h11]
    rw [insertOcc_hit (by simp)]
    rw [List.map_cons, List.map_cons, List.map_cons, List.map_nil]
    rw [if_neg (by rw [beq_eq_false_iff_ne.mpr hXM]; exact Bool.false_ne_true)]
    rw [if_pos (beq_self_eq_true _)]
    rw [if_neg (by
      rw [beq_eq_false_iff_ne.mpr (fun h => hMA' h.symm)]
      exact Bool.false_ne_true)]
    rfl
  have i6 : insertOcc
      [{ id := conditionFirstNodeId, hash := FIRST_CONDITION_HASH,
         isConditionFirst := true, occurrences := [(0, 0), (1, 0)], weight := 2,
         clusterId := none },
       { id := "node-" ++ hashFn a1, hash := hashFn a1, isConditionFirst := false,
         occurrences := [(0, 1), (1, 1)], weight := 2, clusterId := none },
       { id := "node-" ++ hashFn a2, hash := hashFn a2, isConditionFirst := false,
         occurrences := [(0, 2)], weight := 1, clusterId := none }]
      ("node-" ++ hashFn b2) (hashFn b2) false (1, 2)
      = [{ id := conditionFirstNodeId, hash := FIRST_CONDITION_HASH,
           isConditionFirst := true, occurrences := [(0, 0), (1, 0)], weight := 2,
           clusterId := none },
         { id := "node-" ++ hashFn a1, hash := hashFn a1, isConditionFirst := false,
           occurrences := [(0, 1), (1, 1)], weight := 2, clusterId := none },
         { id := "node-" ++ hashFn a2, hash := hashFn a2, isConditionFirst := false,
           occurrences := [(0, 2)], weight := 1, clusterId := none },
         { id := "node-" ++ hashFn b2, hash := hashFn b2, isConditionFirst := false,
           occurrences := [(1, 2)], weight := 1, clusterId := none }] := by
    rw [insertOcc_fresh (by
      intro n hn
      rcases List.mem_cons.mp hn with rfl | hn'
      · exact hXB
      rcases List.mem_cons.mp hn' with rfl | hn''
      · exact hMB'
      rcases List.mem_singleton.mp hn'' with rfl
      exact hAB')]
    rfl
  have hnodes : buildNodes hashFn [[a0, a1, a2], [b0, b1, b2]]
      = [{ id := conditionFirstNodeId, hash := FIRST_CONDITION_HASH,
           isConditionFirst := true, occurrences := [(0, 0), (1, 0)], weight := 2,
           clusterId := none },
         { id := "node-" ++ hashFn a1, hash := hashFn a1, isConditionFirst := false,
           occurrences := [(0, 1), (1, 1)], weight := 2, clusterId := none },
         { id := "node-" ++ hashFn a2, hash := hashFn a2, isConditionFirst := false,
           occurrences := [(0, 2)], weight := 1, clusterId := none },
         { id := "node-" ++ hashFn b2, hash := hashFn b2, isConditionFirst := false,
           occurrences := [(1, 2)], weight := 1, clusterId := none }] := by
    rw [show buildNodes hashFn [[a0, a1, a2], [b0, b1, b2]]
      = buildNodesFrom hashFn
        [(0, 0, a0), (0, 1, a1), (0, 2, a2), (1, 0, b0), (1, 1, b1), (1, 2, b2)]
      from rfl]
    rw [buildNodesFrom]
    simp only [List.foldl_cons, List.foldl_nil,
      show nodeIdFor hashFn 0 a0 = conditionFirstNodeId from rfl,
      show nodeIdFor hashFn 1 a1 = "node-" ++ hashFn a1 from rfl,
      show nodeIdFor hashFn 2 a2 = "node-" ++ hashFn a2 from rfl,
      show nodeIdFor hashFn 0 b0 = conditionFirstNodeId from rfl,
      show nodeIdFor hashFn 1 b1 = "node-" ++ hashFn b1 from rfl,
      show nodeIdFor hashFn 2 b2 = "node-" ++ hashFn b2 from rfl,
      show nodeHashFor hashFn 0 a0 = FIRST_CONDITION_HASH from rfl,
      show nodeHashFor hashFn 1 a1 = hashFn a1 from rfl,
      show nodeHashFor hashFn 2 a2 = hashFn a2 from rfl,
      show nodeHashFor hashFn 0 b0 = FIRST_CONDITION_HASH from rfl,
      show nodeHashFor hashFn 1 b1 = hashFn b1 from rfl,
      show nodeHashFor hashFn 2 b2 = hashFn b2 from rfl,
      show ((0 : Nat) == 0) = true from rfl,
      show ((1 : Nat) == 0) = false from rfl,
      show ((2 : Nat) == 0) = false from rfl]
    rw [i1, i2, i3, i4, i5, i6]
  exact hnodes

set_option maxHeartbeats 800000 in
/-- Links of the first sequence in the C1 scenario. -/
theorem sharedMiddle_seq0 (hashFn : String → String) (a1 a2 : String)
    (hMA : hashFn a2 ≠ hashFn a1)
    (uM : noUnderscore (hashFn a1)) (uA : noUnderscore (hashFn a2))
    (hcM : hashFn a1 ≠ "condition-first") :
    buildLinksForSeq [] 0
      [conditionFirstNodeId, "node-" ++ hashFn a1, "node-" ++ hashFn a2]
      = [{ id := linkKey conditionFirstNodeId ("node-" ++ hashFn a1) 0,
           source := conditionFirstNodeId, target := "node-" ++ hashFn a1,
           count := 1, occurrences := [(0, 0)], sequenceIndex := some 0,
           synthetic := false },
         { id := linkKey ("node-" ++ hashFn a1) ("node-" ++ hashFn a2) 0,
           source := "node-" ++ hashFn a1, target := "node-" ++ hashFn a2,
           count := 1, occurrences := [(0, 1)], sequenceIndex := some 0,
           synthetic := false }] := by
  have hXM : conditionFirstNodeId ≠ "node-" ++ hashFn a1 :=
    fun h => nodePrefix_ne_cf hcM h.symm
  have hMA' : ("node-" ++ hashFn a1) ≠ ("node-" ++ hashFn a2) :=
    fun h => hMA (nodePrefix_inj.mp h).symm
  rw [buildLinksForSeq]
  rw [show List.range ([conditionFirstNodeId, "node-" ++ hashFn a1,
      "node-" ++ hashFn a2].length - 1) = [0, 1] from rfl]
  rw [List.foldl_cons,
    @linkStep_upsert 0 [conditionFirstNodeId, "node-" ++ hashFn a1,
      "node-" ++ hashFn a2] 0 conditionFirstNodeId ("node-" ++ hashFn a1)
      rfl rfl cf_isEmpty_false (nodePrefix_isEmpty_false _) hXM,
    upsertLink_fresh (by intro l hl; cases hl)]
  rw [List.foldl_cons,
    @linkStep_upsert 0 [conditionFirstNodeId, "node-" ++ hashFn a1,
      "node-" ++ hashFn a2] 1 ("node-" ++ hashFn a1) ("node-" ++ hashFn a2)
      rfl rfl (nodePrefix_isEmpty_false _) (nodePrefix_isEmpty_false _) hMA',
    upsertLink_fresh (by
      intro l hl
      rcases List.mem_singleton.mp (by simpa using hl) with rfl
      intro he
      rcases (linkKey_inj noUnderscore_cf (noUnderscore_nodePrefix uM)
        (noUnderscore_nodePrefix uM) (noUnderscore_nodePrefix uA)).mp he with
        ⟨e1, -, -⟩
      exact hXM e1)]
  rw [List.foldl_nil]
  rfl

set_option maxHeartbeats 800000 in
/-- Links of the second sequence in the C1 scenario, appended to the
first sequence's links. -/
theorem sharedMiddle_seq1 (hashFn : String → String) (a1 a2 b2 : String)
    (hBA : hashFn b2 ≠ hashFn a1) (hAB : hashFn a2 ≠ hashFn b2)
    (uM : noUnderscore (hashFn a1)) (uA : noUnderscore (hashFn a2))
    (uB : noUnderscore (hashFn b2))
    (hcM : hashFn a1 ≠ "condition-first") :
    buildLinksForSeq
      [{ id := linkKey conditionFirstNodeId ("node-" ++ hashFn a1) 0,
         source := conditionFirstNodeId, target := "node-" ++ hashFn a1,
         count := 1, occurrences := [(0, 0)], sequenceIndex := some 0,
         synthetic := false },
       { id := linkKey ("node-" ++ hashFn a1) ("node-" ++ hashFn a2) 0,
         source := "node-" ++ hashFn a1, target := "node-" ++ hashFn a2,
         count := 1, occurrences := [(0, 1)], sequenceIndex := some 0,
         synthetic := false }] 1
      [conditionFirstNodeId, "node-" ++ hashFn a1, "node-" ++ hashFn b2]
      = [{ id := linkKey conditionFirstNodeId ("node-" ++ hashFn a1) 0,
           source := conditionFirstNodeId, target := "node-" ++ hashFn a1,
           count := 1, occurrences := [(0, 0)], sequenceIndex := some 0,
           synthetic := false },
         { id := linkKey ("node-" ++ hashFn a1) ("node-" ++ hashFn a2) 0,
           source := "node-" ++ hashFn a1, target := "node-" ++ hashFn a2,
           count := 1, occurrences := [(0, 1)], sequenceIndex := some 0,
           synthetic := false },
         { id := linkKey conditionFirstNodeId ("node-" ++ hashFn a1) 1,
           source := conditionFirstNodeId, target := "node-" ++ hashFn a1,
           count := 1, occurrences := [(1, 0)], sequenceIndex := some 1,
           synthetic := false },
         { id := linkKey ("node-" ++ hashFn a1) ("node-" ++ hashFn b2) 1,
           source := "node-" ++ hashFn a1, target := "node-" ++ hashFn b2,
           count := 1, occurrences := [(1, 1)], sequenceIndex := some 1,
           synthetic := false }] := by
  have hXM : conditionFirstNodeId ≠ "node-" ++ hashFn a1 :=
    fun h => nodePrefix_ne_cf hcM h.symm
  have hMB' : ("node-" ++ hashFn a1) ≠ ("node-" ++ hashFn b2) :=
    fun h => hBA (nodePrefix_inj.mp h).symm
  have hAB' : ("node-" ++ hashFn a2) ≠ ("node-" ++ hashFn b2) :=
    fun h => hAB (nodePrefix_inj.mp h)
  rw [buildLinksForSeq]
  rw [show List.range ([conditionFirstNodeId, "node-" ++ hashFn a1,
      "node-" ++ hashFn b2].length - 1) = [0, 1] from rfl]
  rw [List.foldl_cons,
    @linkStep_upsert 1 [conditionFirstNodeId, "node-" ++ hashFn a1,
      "node-" ++ hashFn b2] 0 conditionFirstNodeId ("node-" ++ hashFn a1)
      rfl rfl cf_isEmpty_false (nodePrefix_isEmpty_false _) hXM,
    upsertLink_fresh (by
      intro l hl
      rcases List.mem_cons.mp hl with rfl | hl'
      · intro he
        rcases (linkKey_inj noUnderscore_cf (noUnderscore_nodePrefix uM)
          noUnderscore_cf (noUnderscore_nodePrefix uM)).mp he with ⟨-, -, e3⟩
        exact absurd e3 (by decide)
      rcases List.mem_singleton.mp hl' with rfl
      intro he
      rcases (linkKey_inj (noUnderscore_nodePrefix uM) (noUnderscore_nodePrefix uA)
        noUnderscore_cf (noUnderscore_nodePrefix uM)).mp he with ⟨e1, -, -⟩
      exact hXM e1.symm)]
  rw [List.foldl_cons,
    @linkStep_upsert 1 [conditionFirstNodeId, "node-" ++ hashFn a1,
      "node-" ++ hashFn b2] 1 ("node-" ++ hashFn a1) ("node-" ++ hashFn b2)
      rfl rfl (nodePrefix_isEmpty_false _) (nodePrefix_isEmpty_false _) hMB',
    upsertLink_fresh (by
      intro l hl
      rcases List.mem_append.mp hl with hl' | hl'
      · rcases List.mem_cons.mp hl' with rfl | hl''
        · intro he
          rcases (linkKey_inj noUnderscore_cf (noUnderscore_nodePrefix uM)
            (noUnderscore_nodePrefix uM) (noUnderscore_nodePrefix uB)).mp he with
            ⟨e1, -, -⟩
          exact hXM e1
        rcases List.mem_singleton.mp hl'' with rfl
        intro he
        rcases (linkKey_inj (noUnderscore_nodePrefix uM) (noUnderscore_nodePrefix uA)
          (noUnderscore_nodePrefix uM) (noUnderscore_nodePrefix uB)).mp he with
          ⟨-, e2, -⟩
        exact hAB' e2
      · rcases List.mem_singleton.mp hl' with rfl
        intro he
        rcases (linkKey_inj noUnderscore_cf (noUnderscore_nodePrefix uM)
          (noUnderscore_nodePrefix uM) (noUnderscore_nodePrefix uB)).mp he with
          ⟨e1, -, -⟩
        exact hXM e1)]
  rw [List.foldl_nil]
  rfl

set_option maxHeartbeats 800000 in
/-- The four links of the C1 scenario, each incident to the shared
middle node. -/
theorem sharedMiddle_buildLinks (hashFn : String → String)
    (a1 a2 b2 : String)
    (hMA : hashFn a2 ≠ hashFn a1) (hBA : hashFn b2 ≠ hashFn a1)
    (hAB : hashFn a2 ≠ hashFn b2)
    (uM : noUnderscore (hashFn a1)) (uA : noUnderscore (hashFn a2))
    (uB : noUnderscore (hashFn b2))
    (hcM : hashFn a1 ≠ "condition-first") :
    buildLinks
      [[conditionFirstNodeId, "node-" ++ hashFn a1, "node-" ++ hashFn a2],
       [conditionFirstNodeId, "node-" ++ hashFn a1, "node-" ++ hashFn b2]]
      = [{ id := linkKey conditionFirstNodeId ("node-" ++ hashFn a1) 0,
           source := conditionFirstNodeId, target := "node-" ++ hashFn a1,
           count := 1, occurrences := [(0, 0)], sequenceIndex := some 0,
           synthetic := false },
         { id := linkKey ("node-" ++ hashFn a1) ("node-" ++ hashFn a2) 0,
           source := "node-" ++ hashFn a1, target := "node-" ++ hashFn a2,
           count := 1, occurrences := [(0, 1)], sequenceIndex := some 0,
           synthetic := false },
         { id := linkKey conditionFirstNodeId ("node-" ++ hashFn a1) 1,
           source := conditionFirstNodeId, target := "node-" ++ hashFn a1,
           count := 1, occurrences := [(1, 0)], sequenceIndex := some 1,
           synthetic := false },
         { id := linkKey ("node-" ++ hashFn a1) ("node-" ++ hashFn b2) 1,
           source := "node-" ++ hashFn a1, target := "node-" ++ hashFn b2,
           count := 1, occurrences := [(1, 1)], sequenceIndex := some 1,
           synthetic := false }] := by
  rw [show buildLinks
      [[conditionFirstNodeId, "node-" ++ hashFn a1, "node-" ++ hashFn a2],
       [conditionFirstNodeId, "node-" ++ hashFn a1, "node-" ++ hashFn b2]]
    = buildLinksForSeq
        (buildLinksForSeq [] 0
          [conditionFirstNodeId, "node-" ++ hashFn a1, "node-" ++ hashFn a2]) 1
        [conditionFirstNodeId, "node-" ++ hashFn a1, "node-" ++ hashFn b2] from rfl]
  rw [sharedMiddle_seq0 hashFn a1 a2 hMA uM uA hcM]
  rw [sharedMiddle_seq1 hashFn a1 a2 b2 hBA hAB uM uA uB hcM]

set_option maxHeartbeats 1600000 in
/-- Claim C1 amended: for two sequences of 3 screenshots whose position-1
screenshots fingerprint identically while the remaining fingerprints are
pairwise distinct, the built graph has exactly 4 nodes — one shared
reserved start node (every position-0 screenshot maps to it), one shared
middle node and two distinct end nodes — and exactly 4 links, every one
of them incident to the shared middle node. -/
theorem shared_middle_scenario (hashFn : String → String)
    (a0 a1 a2 b0 b1 b2 : String)
    (h11 : hashFn a1 = hashFn b1)
    (hMA : hashFn a2 ≠ hashFn a1) (hBA : hashFn b2 ≠ hashFn a1)
    (hAB : hashFn a2 ≠ hashFn b2)
    (uM : noUnderscore (hashFn a1)) (uA : noUnderscore (hashFn a2))
    (uB : noUnderscore (hashFn b2))
    (hcM : hashFn a1 ≠ "condition-first") (hcA : hashFn a2 ≠ "condition-first")
    (hcB : hashFn b2 ≠ "condition-first") :
    ((buildNodes hashFn [[a0, a1, a2], [b0, b1, b2]]).map Node.id
      = [conditionFirstNodeId, "node-" ++ hashFn a1, "node-" ++ hashFn a2,
         "node-" ++ hashFn b2]) ∧
    (((buildNodes hashFn [[a0, a1, a2], [b0, b1, b2]]).map Node.id).Nodup) ∧
    ((buildLinks (assignNodeIds hashFn [[a0, a1, a2], [b0, b1, b2]])).length = 4) ∧
    (∀ l ∈ buildLinks (assignNodeIds hashFn [[a0, a1, a2], [b0, b1, b2]]),
      l.source = "node-" ++ hashFn a1 ∨ l.target = "node-" ++ hashFn a1) := by
  have hXM : conditionFirstNodeId ≠ "node-" ++ hashFn a1 :=
    fun h => nodePrefix_ne_cf hcM h.symm
  have hXA : conditionFirstNodeId ≠ "node-" ++ hashFn a2 :=
    fun h => nodePrefix_ne_cf hcA h.symm
  have hXB : conditionFirstNodeId ≠ "node-" ++ hashFn b2 :=
    fun h => nodePrefix_ne_cf hcB h.symm
  have hMA' : ("node-" ++ hashFn a1) ≠ ("node-" ++ hashFn a2) :=
    fun h => hMA (nodePrefix_inj.mp h).symm
  have hMB' : ("node-" ++ hashFn a1) ≠ ("node-" ++ hashFn b2) :=
    fun h => hBA (nodePrefix_inj.mp h).symm
  have hAB' : ("node-" ++ hashFn a2) ≠ ("node-" ++ hashFn b2) :=
    fun h => hAB (nodePrefix_inj.mp h)
  have hnodes := sharedMiddle_buildNodes hashFn a0 a1 a2 b0 b1 b2 h11 hMA hBA hAB
    hcM hcA hcB
  have hids : assignNodeIds hashFn [[a0, a1, a2], [b0, b1, b2]]
      = [[conditionFirstNodeId, "node-" ++ hashFn a1, "node-" ++ hashFn a2],
         [conditionFirstNodeId, "node-" ++ hashFn a1, "node-" ++ hashFn b2]] := by
    show [[conditionFirstNodeId, "node-" ++ hashFn a1, "node-" ++ hashFn a2],
          [conditionFirstNodeId, "node-" ++ hashFn b1, "node-" ++ hashFn b2]] = _
    rw [← h11]
  have hlinks := sharedMiddle_buildLinks hashFn a1 a2 b2 hMA hBA hAB uM uA uB hcM
  refine ⟨?_, ?_, ?_, ?_⟩
  · rw [hnodes]
    rfl
  · rw [hnodes]
    rw [List.map_cons, List.map_cons, List.map_cons, List.map_cons, List.map_nil]
    simp [List.nodup_cons, hXM, hXA, hXB, hMA', hMB', hAB']
  · rw [hids, hlinks]
    rfl
  · rw [hids, hlinks]
    intro l hl
    rcases List.mem_cons.mp hl with rfl | hl
    · exact Or.inr rfl
    rcases List.mem_cons.mp hl with rfl | hl
    · exact Or.inl rfl
    rcases List.mem_cons.mp hl with rfl | hl
    · exact Or.inr rfl
    rcases List.mem_singleton.mp hl with rfl
    exact Or.inl rfl


/-- Witness for the amended C1 at a concrete two-sequence input. -/
theorem shared_middle_scenario_witness :
    ((fun s => s) "m" = (fun s => s) "m") ∧
    (((buildNodes (fun s => s) [["a0", "m", "a2"], ["b0", "m", "b2"]]).map Node.id
      = [conditionFirstNodeId, "node-" ++ (fun s => s) "m",
         "node-" ++ (fun s => s) "a2", "node-" ++ (fun s => s) "b2"]) ∧
    (((buildNodes (fun s => s) [["a0", "m", "a2"], ["b0", "m", "b2"]]).map
        Node.id).Nodup) ∧
    ((buildLinks (assignNodeIds (fun s => s)
        [["a0", "m", "a2"], ["b0", "m", "b2"]])).length = 4) ∧
    (∀ l ∈ buildLinks (assignNodeIds (fun s => s)
        [["a0", "m", "a2"], ["b0", "m", "b2"]]),
      l.source = "node-" ++ (fun s => s) "m" ∨
        l.target = "node-" ++ (fun s => s) "m")) :=
  ⟨rfl,
   shared_middle_scenario (fun s => s) "a0" "m" "a2" "b0" "m" "b2" rfl
     (by decide) (by decide) (by decide) (by decide) (by decide) (by decide)
     (by decide) (by decide) (by decide)⟩

end EvalAgent
